import Mathlib

/-!
Verification development for the Reckoning Radar pipeline (`src/pipeline.py`).

The pipeline fetches documents, runs three oracle stages (scout extraction,
verification, decision), and persists results to a relational store with a
victim-protection write protocol.  This file gives a shallow embedding of the
functions the claims are about:

* the three stage parsers with their JSON-parse fallback objects
  (`run_scout_agent`, `run_verification_harness`, `run_decision_engine`),
* the OCR-quality assessment of `fetch_document`,
* the truncation window of `process_document`,
* the database writer `write_to_database` over an explicit store state,
* the context assembler `get_database_context`,
* the batch orchestrator `process_batch`.

Modelling conventions, used throughout:
* Python dicts produced by the oracles are modelled as structures; a field
  read with `dict.get(key, default)` is modelled as a field whose default
  value is that default, and a field whose absence is semantically distinct
  (`None` stored into the database) is modelled with `Option`.
* The durable store (Supabase) is modelled as lists of rows with a fresh-id
  counter; `upsert(record, on_conflict=key)` replaces the row whose declared
  key columns equal those of the record (keeping its id and the columns the
  record does not provide) or appends a fresh row; `insert` always appends.
* Wall-clock fields (`fetched_at`, `processed_at`, `_processing_ms`) and the
  inter-document `asyncio.sleep` delay are not modelled; `_tokens_used` is
  kept (it flows into the processing log).
* `hashlib.md5` is an external library call; it is passed in as a function
  parameter `md5hex : String → String`.
* Python string primitives are modelled characterwise over `String.data`
  (`strip`, `lower`, `upper`, slicing); these agree with CPython on the
  ASCII range handled here.
-/

/-! ## Python string primitives -/

/-- Whitespace stripped by Python `str.strip()` (ASCII range). -/
def pySpace (c : Char) : Bool :=
  c == ' ' || c == '\t' || c == '\n' || c == '\r' || c == '\x0b' || c == '\x0c'

/-- Python `str.strip()`: drop whitespace from both ends. -/
def pyStrip (s : String) : String :=
  String.mk (((s.data.dropWhile pySpace).reverse.dropWhile pySpace).reverse)

/-- Python `str.lower()` (ASCII). -/
def strLower (s : String) : String := String.mk (s.data.map Char.toLower)

/-- Python `str.upper()` (ASCII). -/
def strUpper (s : String) : String := String.mk (s.data.map Char.toUpper)

/-- Python slice `s[:n]` (by code points). -/
def strTake (s : String) (n : Nat) : String := String.mk (s.data.take n)

/-- Python substring test `needle in hay`. -/
def strContainsSub (hay needle : String) : Bool :=
  decide (needle.data <:+: hay.data)

/-- Python `"\n".join(parts)`. -/
def joinNL : List String → String
  | [] => ""
  | [x] => x
  | x :: y :: t => x ++ "\n" ++ joinNL (y :: t)

/-! ## Victim-protection lexicon (pipeline.py lines 59-62) -/

/-- The fixed protected-term lexicon.  Terms trigger flagging; the writer
never persists a matching name. -/
def VICTIM_PROTECTION_KEYWORDS : List String :=
  ["victim", "survivor", "minor", "underage", "trafficking victim",
   "jane doe", "john doe", "alleged victim", "complainant"]

/-! ## Oracle output shapes

Structures mirror the JSON objects the three stages produce (fields the
pipeline reads, with their `dict.get` defaults as structure defaults). -/

/-- One entry of the scout output `persons_found`. -/
structure ScoutPerson where
  name : String := ""
  name_as_written : String := ""
  context : String := ""
  is_redacted : Bool := false
  possible_victim : Bool := false
deriving DecidableEq, Repr

/-- One entry of the scout output `locations_found`. -/
structure ScoutLocation where
  name : String := ""
  location_type : String := "other"
  context : String := ""
deriving DecidableEq, Repr

/-- One entry of the scout output `events_found`. -/
structure ScoutEvent where
  event_type : String := "other"
  date : Option String := none
  date_precision : String := "unknown"
  persons_involved : List String := []
  location : Option String := none
  description : String := ""
deriving DecidableEq, Repr

/-- Scout (extraction) stage output.  `tokensUsed` models the bookkeeping
field `_tokens_used` attached after the call.  The fallback dict omits
`document_date` and `date_precision`; the writer reads them with
`.get(…)` / `.get(…, "unknown")`, which the defaults here reproduce. -/
structure ScoutData where
  document_type : String := "other"
  document_date : Option String := none
  date_precision : String := "unknown"
  persons_found : List ScoutPerson := []
  locations_found : List ScoutLocation := []
  events_found : List ScoutEvent := []
  organizations_found : List String := []
  victim_flags : List String := []
  scout_notes : String := ""
  requires_human_review : Bool := false
  tokensUsed : Nat := 0
deriving DecidableEq, Repr

/-- One entry of the verification output `verified_persons`.
`possible_victim` and `requires_human_review` are read by the writer with
`dict.get`, absent keys mapping to the falsy default modelled here. -/
structure VerifiedPerson where
  name : String := ""
  confidence : String := "unverified"
  verification_notes : String := ""
  upgrade_gap : Option String := none
  is_redacted : Bool := false
  name_recovered : Bool := false
  possible_victim : Bool := false
  requires_human_review : Bool := false
deriving DecidableEq, Repr

/-- One entry of the verification output `verified_locations`. -/
structure VerifiedLocation where
  name : String := ""
  location_type : String := "other"
  confidence : String := "unverified"
deriving DecidableEq, Repr

/-- One entry of the verification output `verified_events`.
`event_type` stays `Option` because the code applies two different
defaults to it (`"other"` for the row, `"Event"` inside the title). -/
structure VerifiedEvent where
  event_type : Option String := none
  date : Option String := none
  date_precision : String := "unknown"
  confidence : String := "unverified"
  persons_present : List String := []
  location : Option String := none
  upgrade_gap : Option String := none
  verification_notes : String := ""
  description : Option String := none
deriving DecidableEq, Repr

/-- One entry of the verification output `conflicts_detected`. -/
structure ConflictDetected where
  conflict_type : String := "other"
  description : String := ""
  document_claim : String := ""
  conflicting_claim : String := ""
deriving DecidableEq, Repr

/-- Verification stage output. -/
structure VerificationData where
  verification_summary : String := ""
  document_confidence : String := "unverified"
  ocr_reliability : String := ""
  verified_persons : List VerifiedPerson := []
  verified_locations : List VerifiedLocation := []
  verified_events : List VerifiedEvent := []
  conflicts_detected : List ConflictDetected := []
  anomalies : List String := []
  verification_notes : String := ""
  requires_human_review : Bool := false
  human_review_reason : Option String := none
  tokensUsed : Nat := 0
deriving DecidableEq, Repr

/-- Power Index sub-scores of one decision-stage person entry; every
sub-score is stored into the person row via `power.get(…)`, hence `Option`. -/
structure PowerIndex where
  public_profile : Option Int := none
  institutional : Option Int := none
  network_centrality : Option Int := none
  corroboration : Option Int := none
deriving DecidableEq, Repr

/-- One entry of the decision output `persons_intelligence`. -/
structure PersonIntel where
  name : String := ""
  final_confidence : String := "unverified"
  power_index : Option PowerIndex := none
  category_inference : Option String := none
  pattern_flags : List String := []
  upgrade_gap : Option String := none
deriving DecidableEq, Repr

/-- One entry of the decision output `relationship_determinations`
(fields read with `dict.get` defaults). -/
structure RelDet where
  person_a : String := ""
  person_b : String := ""
  relationship_type : String := "unknown"
  evidence_strength : String := "weak"
  co_occurrence_count : Int := 1
  notes : String := ""
deriving DecidableEq, Repr

/-- One entry of the decision output `pattern_flags`. -/
structure PatternFlag where
  flag_type : String := "other"
  description : String := ""
  persons_involved : List String := []
  significance : String := "low"
deriving DecidableEq, Repr

/-- Decision stage output.  Note: this object (both the schema in the
system prompt and the parse-failure fallback) has no
`requires_human_review` field. -/
structure DecisionData where
  intelligence_value : String := "low"
  intelligence_summary : String := ""
  persons_intelligence : List PersonIntel := []
  relationship_determinations : List RelDet := []
  pattern_flags : List PatternFlag := []
  decision_log : List String := []
  evidence_chain : String := ""
  tokensUsed : Nat := 0
deriving DecidableEq, Repr

/-! ## Stage parsers and their fallbacks (pipeline.py lines 254-267,
421-434, 582-594)

A raw oracle response that decodes as JSON of the expected shape is
modelled as `some data`; an undecodable response as `none`.  Each parser
substitutes its fallback object instead of raising. -/

/-- Scout parse fallback (lines 258-267). -/
def scoutFallback (raw_output : String) : ScoutData :=
  { document_type := "other"
    persons_found := []
    locations_found := []
    events_found := []
    organizations_found := []
    victim_flags := []
    scout_notes := "JSON parse failed. Raw: " ++ strTake raw_output 200
    requires_human_review := true }

/-- Keys of the scout fallback dict literal, in source order. -/
def scoutFallbackKeys : List String :=
  ["document_type", "persons_found", "locations_found", "events_found",
   "organizations_found", "victim_flags", "scout_notes",
   "requires_human_review"]

/-- Scout stage parse step: decoded data, or the fallback. -/
def runScoutAgent (parsed : Option ScoutData) (raw_output : String) : ScoutData :=
  match parsed with
  | some d => d
  | none => scoutFallback raw_output

/-- Verification parse fallback (lines 425-434). -/
def verificationFallback : VerificationData :=
  { document_confidence := "unverified"
    verified_persons := []
    verified_locations := []
    verified_events := []
    conflicts_detected := []
    anomalies := ["JSON parse failed"]
    requires_human_review := true
    human_review_reason := some "Verification agent output unparseable" }

/-- Keys of the verification fallback dict literal, in source order. -/
def verificationFallbackKeys : List String :=
  ["document_confidence", "verified_persons", "verified_locations",
   "verified_events", "conflicts_detected", "anomalies",
   "requires_human_review", "human_review_reason"]

/-- Verification stage parse step. -/
def runVerificationHarness (parsed : Option VerificationData) : VerificationData :=
  match parsed with
  | some d => d
  | none => verificationFallback

/-- Decision parse fallback (lines 586-594).  It carries no
`requires_human_review` key; the diversion is expressed through
`intelligence_value = "low"` and the two narrative strings. -/
def decisionFallback : DecisionData :=
  { intelligence_value := "low"
    intelligence_summary := "Processing error — human review required"
    persons_intelligence := []
    relationship_determinations := []
    pattern_flags := []
    decision_log := ["JSON parse failed"]
    evidence_chain := "Unable to generate — human review required" }

/-- Keys of the decision fallback dict literal, in source order. -/
def decisionFallbackKeys : List String :=
  ["intelligence_value", "intelligence_summary", "persons_intelligence",
   "relationship_determinations", "pattern_flags", "decision_log",
   "evidence_chain"]

/-- Decision stage parse step. -/
def runDecisionEngine (parsed : Option DecisionData) : DecisionData :=
  match parsed with
  | some d => d
  | none => decisionFallback

/-! ## Document fetcher internals (pipeline.py lines 85-122) -/

/-- The readable-character class of the OCR quality check:
the regex `[a-zA-Z0-9\s.,;:'"!?-]` (ASCII range). -/
def readableChar (c : Char) : Bool :=
  ('a' ≤ c && c ≤ 'z') || ('A' ≤ c && c ≤ 'Z') || ('0' ≤ c && c ≤ '9') ||
  pySpace c ||
  c == '.' || c == ',' || c == ';' || c == ':' || c == '\'' || c == '"' ||
  c == '!' || c == '?' || c == '-'

/-- Concatenated page text of a fetched PDF: each page contributes its
extracted text (possibly empty) plus a newline (lines 91-93). -/
def pdfRawText (pages : List String) : String :=
  pages.foldl (fun text page_text => text ++ page_text ++ "\n") ""

/-- `readable_chars` (line 101): count of readable characters. -/
def readableCharsCount (text : String) : Nat :=
  (text.data.filter readableChar).length

/-- `quality_ratio` (line 102): readable chars over total chars,
guarded to 0 on empty text.  Python float division is modelled exactly
over `ℚ`. -/
def textQualityScore (text : String) : ℚ :=
  if text.length > 0 then (readableCharsCount text : ℚ) / (text.length : ℚ) else 0

/-- OCR quality tier from the quality ratio (lines 104-111). -/
def ocrQualityOf (text : String) : String :=
  let q := textQualityScore text
  if q > 0.85 then "clean"
  else if q > 0.70 then "minor_artifacts"
  else if q > 0.50 then "degraded"
  else "poor"

/-- DOJ encoding-artifact heuristic (lines 96-97): some page holds more
than twenty `=` characters. -/
def hasEncodingArtifactsOf (pages : List String) : Bool :=
  pages.any (fun page_text => (page_text.data.filter (· == '=')).length > 20)

/-- Normalized document metadata handed to the pipeline stages
(the dict returned by `fetch_document` minus `fetched_at`). -/
structure DocumentMeta where
  url : String := ""
  content_type : String := "pdf"
  raw_text : String := ""
  page_count : Nat := 1
  ocr_quality : String := "clean"
  has_encoding_artifacts : Bool := false
  file_size_kb : Nat := 0
deriving DecidableEq, Repr

/-- PDF branch of `fetch_document` (lines 85-122), given the page texts
extracted by pdfplumber and the raw byte count. -/
def fetchPdfDocument (url : String) (pages : List String) (rawBytes : Nat) : DocumentMeta :=
  let text := pdfRawText pages
  { url := url
    content_type := "pdf"
    raw_text := text
    page_count := pages.length
    ocr_quality := ocrQualityOf text
    has_encoding_artifacts := hasEncodingArtifactsOf pages
    file_size_kb := rawBytes / 1024 }

/-! ## Truncation window of `process_document` (lines 930-936) -/

/-- `MAX_CHARS`: the maximum processing window. -/
def MAX_CHARS : Nat := 80000

/-- The text chunk handed to the scout agent: the raw text, truncated to
the first `MAX_CHARS` characters when it is longer (the code prints a
console warning in that case but records nothing in any output). -/
def chunkDocText (raw_text : String) : String :=
  if raw_text.length > MAX_CHARS then strTake raw_text MAX_CHARS else raw_text

/-- The scout phase of `process_document`: compute the chunk, hand it to
the oracle, parse with fallback.  The oracle maps the document and the
chunk to a parse result together with its raw response text. -/
def scoutPhase (document : DocumentMeta)
    (oracle : DocumentMeta → String → Option ScoutData × String) :
    String × ScoutData :=
  let text_chunk := chunkDocText document.raw_text
  let response := oracle document text_chunk
  (text_chunk, runScoutAgent response.1 response.2)

/-! ## The durable store

Row types mirror the columns the pipeline writes or reads.  Columns the
writer never provides but the context assembler reads
(`total_document_count`, `total_visit_count`, person `category` on
insert) are store-maintained: upserts leave them untouched on update and
at their store default on insert. -/

/-- A `documents` row. -/
structure DocRow where
  id : Nat := 0
  doc_reference_id : String := ""
  document_type : String := "other"
  source : String := "doj_release"
  document_date : Option String := none
  date_precision : String := "unknown"
  release_batch : String := ""
  ocr_quality : String := "clean"
  redaction_status : String := "none"
  has_encoding_artifacts : Bool := false
  doj_url : String := ""
  page_count : Nat := 1
  file_size_kb : Nat := 0
  is_processed : Bool := true
  notes : String := ""
deriving DecidableEq, Repr

/-- A `persons` row. -/
structure PersonRow where
  id : Nat := 0
  full_name : String := ""
  confidence : String := "unverified"
  redaction_status : String := "none"
  name_recovered : Bool := false
  power_public_profile : Option Int := none
  power_institutional : Option Int := none
  power_network_centrality : Option Int := none
  power_corroboration : Option Int := none
  upgrade_gap_note : Option String := none
  victim_protected : Bool := false
  is_victim : Bool := false
  flagged_for_review : Bool := false
  category : Option String := none
  total_document_count : Nat := 0
deriving DecidableEq, Repr

/-- A `person_documents` junction row. -/
structure PersonDocRow where
  person_id : Nat := 0
  document_id : Option Nat := none
  confidence : String := "unverified"
deriving DecidableEq, Repr

/-- A `locations` row. -/
structure LocationRow where
  id : Nat := 0
  name : String := ""
  location_type : String := "other"
  confidence : String := "unverified"
  total_visit_count : Nat := 0
deriving DecidableEq, Repr

/-- An `events` row. -/
structure EventRow where
  id : Nat := 0
  event_type : String := "other"
  title : String := ""
  event_date : Option String := none
  date_precision : String := "unknown"
  primary_location_id : Option Nat := none
  confidence : String := "unverified"
  upgrade_gap_note : Option String := none
  notes : String := ""
deriving DecidableEq, Repr

/-- An `event_documents` junction row. -/
structure EventDocRow where
  event_id : Nat := 0
  document_id : Option Nat := none
  support_type : String := "primary_proof"
deriving DecidableEq, Repr

/-- An `event_persons` junction row. -/
structure EventPersonRow where
  event_id : Nat := 0
  person_id : Nat := 0
  confidence : String := "unverified"
deriving DecidableEq, Repr

/-- A `person_relationships` row.  The upsert conflict key declared by
the writer is the ordered column pair `person_a_id,person_b_id`. -/
structure RelRow where
  person_a_id : Nat := 0
  person_b_id : Nat := 0
  relationship_type : String := "unknown"
  evidence_strength : String := "weak"
  co_occurrence_count : Int := 1
  notes : String := ""
  source_document_ids : List Nat := []
deriving DecidableEq, Repr

/-- A `conflict_records` row (append-only). -/
structure ConflictRow where
  entity_type : String := "other"
  entity_id : Option Nat := none
  conflict_field : String := ""
  document_a_id : Option Nat := none
  document_a_claim : String := ""
  document_b_claim : String := ""
deriving DecidableEq, Repr

/-- An `agent_processing_log` row (append-only). -/
structure LogRow where
  agent_name : String := "full_pipeline"
  document_id : Option Nat := none
  batch_id : String := ""
  status : String := "complete"
  persons_extracted : Nat := 0
  locations_extracted : Nat := 0
  events_created : Nat := 0
  conflicts_flagged : Nat := 0
  model_used : String := ""
  tokens_used : Nat := 0
deriving DecidableEq, Repr

/-- The store state: one list per table, plus a fresh-id counter
(ids start at 1 so that a present id is always truthy in Python). -/
structure DB where
  nextId : Nat := 1
  documents : List DocRow := []
  persons : List PersonRow := []
  person_documents : List PersonDocRow := []
  locations : List LocationRow := []
  events : List EventRow := []
  event_documents : List EventDocRow := []
  event_persons : List EventPersonRow := []
  person_relationships : List RelRow := []
  conflict_records : List ConflictRow := []
  agent_processing_log : List LogRow := []
deriving DecidableEq, Repr

/-- The empty store. -/
def emptyDB : DB := {}

/-- `documents` upsert, `on_conflict="doc_reference_id"` (lines 662-665):
replace the row with the same reference (keeping its id), else append a
fresh row.  Returns the row id, as `result.data[0]["id"]`. -/
def upsertDocumentRow (db : DB) (r : DocRow) : DB × Nat :=
  match db.documents.find? (fun d => d.doc_reference_id == r.doc_reference_id) with
  | some old =>
    ({ db with documents := db.documents.map (fun d =>
        if d.doc_reference_id == r.doc_reference_id then { r with id := d.id } else d) },
     old.id)
  | none =>
    ({ db with documents := db.documents ++ [{ r with id := db.nextId }],
               nextId := db.nextId + 1 },
     db.nextId)

/-- The columns of `person_record` (lines 703-720); `category` is `none`
when the key is absent from the dict (left untouched on update, store
default on insert). -/
structure PersonUpsertRec where
  full_name : String := ""
  confidence : String := "unverified"
  redaction_status : String := "none"
  name_recovered : Bool := false
  power_public_profile : Option Int := none
  power_institutional : Option Int := none
  power_network_centrality : Option Int := none
  power_corroboration : Option Int := none
  upgrade_gap_note : Option String := none
  victim_protected : Bool := false
  is_victim : Bool := false
  flagged_for_review : Bool := false
  category : Option String := none
deriving DecidableEq, Repr

/-- Apply a person upsert record to an existing row (partial update:
columns not in the record keep their stored values). -/
def applyPersonRec (r : PersonUpsertRec) (old : PersonRow) : PersonRow :=
  { id := old.id
    full_name := r.full_name
    confidence := r.confidence
    redaction_status := r.redaction_status
    name_recovered := r.name_recovered
    power_public_profile := r.power_public_profile
    power_institutional := r.power_institutional
    power_network_centrality := r.power_network_centrality
    power_corroboration := r.power_corroboration
    upgrade_gap_note := r.upgrade_gap_note
    victim_protected := r.victim_protected
    is_victim := r.is_victim
    flagged_for_review := r.flagged_for_review
    category := match r.category with
      | some c => some c
      | none => old.category
    total_document_count := old.total_document_count }

/-- Build a fresh person row from an upsert record. -/
def freshPersonRow (r : PersonUpsertRec) (id : Nat) : PersonRow :=
  { id := id
    full_name := r.full_name
    confidence := r.confidence
    redaction_status := r.redaction_status
    name_recovered := r.name_recovered
    power_public_profile := r.power_public_profile
    power_institutional := r.power_institutional
    power_network_centrality := r.power_network_centrality
    power_corroboration := r.power_corroboration
    upgrade_gap_note := r.upgrade_gap_note
    victim_protected := r.victim_protected
    is_victim := r.is_victim
    flagged_for_review := r.flagged_for_review
    category := r.category
    total_document_count := 0 }

/-- `persons` upsert, `on_conflict="full_name"` (lines 722-725). -/
def upsertPersonRow (db : DB) (r : PersonUpsertRec) : DB × Nat :=
  match db.persons.find? (fun p => p.full_name == r.full_name) with
  | some old =>
    ({ db with persons := db.persons.map (fun p =>
        if p.full_name == r.full_name then applyPersonRec r p else p) },
     old.id)
  | none =>
    ({ db with persons := db.persons ++ [freshPersonRow r db.nextId],
               nextId := db.nextId + 1 },
     db.nextId)

/-- `person_documents` upsert, `on_conflict="person_id,document_id"`
(lines 731-735). -/
def upsertPersonDocRow (db : DB) (r : PersonDocRow) : DB :=
  if db.person_documents.any (fun j =>
      j.person_id == r.person_id && j.document_id == r.document_id) then
    { db with person_documents := db.person_documents.map (fun j =>
        if j.person_id == r.person_id && j.document_id == r.document_id then r else j) }
  else
    { db with person_documents := db.person_documents ++ [r] }

/-- `locations` upsert, `on_conflict="name"` (lines 753-756);
`total_visit_count` is store-maintained. -/
def upsertLocationRow (db : DB) (name location_type confidence : String) : DB × Nat :=
  match db.locations.find? (fun l => l.name == name) with
  | some old =>
    ({ db with locations := db.locations.map (fun l =>
        if l.name == name then
          { l with location_type := location_type, confidence := confidence } else l) },
     old.id)
  | none =>
    ({ db with locations := db.locations ++
                  [{ id := db.nextId, name := name, location_type := location_type,
                     confidence := confidence, total_visit_count := 0 }],
               nextId := db.nextId + 1 },
     db.nextId)

/-- `events` insert (line 779): always appends a fresh row. -/
def insertEventRow (db : DB) (r : EventRow) : DB × Nat :=
  ({ db with events := db.events ++ [{ r with id := db.nextId }],
             nextId := db.nextId + 1 },
   db.nextId)

/-- `event_documents` insert (lines 786-790). -/
def insertEventDocRow (db : DB) (r : EventDocRow) : DB :=
  { db with event_documents := db.event_documents ++ [r] }

/-- `event_persons` upsert, `on_conflict="event_id,person_id"`
(lines 799-803). -/
def upsertEventPersonRow (db : DB) (r : EventPersonRow) : DB :=
  if db.event_persons.any (fun j =>
      j.event_id == r.event_id && j.person_id == r.person_id) then
    { db with event_persons := db.event_persons.map (fun j =>
        if j.event_id == r.event_id && j.person_id == r.person_id then r else j) }
  else
    { db with event_persons := db.event_persons ++ [r] }

/-- `person_relationships` upsert, `on_conflict="person_a_id,person_b_id"`
(lines 815-823): the conflict key is the ordered id pair exactly as the
writer passes it. -/
def upsertRelRow (db : DB) (r : RelRow) : DB :=
  if db.person_relationships.any (fun q =>
      q.person_a_id == r.person_a_id && q.person_b_id == r.person_b_id) then
    { db with person_relationships := db.person_relationships.map (fun q =>
        if q.person_a_id == r.person_a_id && q.person_b_id == r.person_b_id then r else q) }
  else
    { db with person_relationships := db.person_relationships ++ [r] }

/-- `conflict_records` insert (append-only). -/
def insertConflictRow (db : DB) (r : ConflictRow) : DB :=
  { db with conflict_records := db.conflict_records ++ [r] }

/-- `agent_processing_log` insert (append-only). -/
def insertLogRow (db : DB) (r : LogRow) : DB :=
  { db with agent_processing_log := db.agent_processing_log ++ [r] }

/-- `persons` select by exact `full_name` (lines 794-796, 807-812):
first matching row id, if any. -/
def selectPersonIdByName (db : DB) (name : String) : Option Nat :=
  (db.persons.find? (fun p => p.full_name == name)).map (fun p => p.id)

/-! ## The record writer `write_to_database` (pipeline.py lines 618-866) -/

/-- Model routing constants (lines 49-51). -/
def SCOUT_MODEL : String := "claude-haiku-4-5-20251001"

/-- Verification model constant. -/
def VERIFICATION_MODEL : String := "claude-sonnet-4-6"

/-- Decision model constant. -/
def DECISION_MODEL : String := "claude-sonnet-4-6"

/-- The result summary dict of `write_to_database` (lines 632-639). -/
structure WriteResults where
  document_id : Option Nat := none
  persons_written : Nat := 0
  locations_written : Nat := 0
  events_written : Nat := 0
  conflicts_logged : Nat := 0
  victim_flags : Nat := 0
deriving DecidableEq, Repr

/-- The derived stable document reference (line 642 and 645):
`"DOC-" + md5(url)[:8].upper()`. -/
def docRefOfUrl (md5hex : String → String) (url : String) : String :=
  "DOC-" ++ strUpper (strTake (md5hex url) 8)

/-- The `doc_record` dict (lines 644-660), minus the wall-clock
`processed_at`. -/
def buildDocRecord (md5hex : String → String) (meta : DocumentMeta)
    (scout : ScoutData) (verification : VerificationData) (batch_id : String) : DocRow :=
  { doc_reference_id := docRefOfUrl md5hex meta.url
    document_type := scout.document_type
    source := "doj_release"
    document_date := scout.document_date
    date_precision := scout.date_precision
    release_batch := batch_id
    ocr_quality := meta.ocr_quality
    redaction_status := "none"
    has_encoding_artifacts := meta.has_encoding_artifacts
    doj_url := meta.url
    page_count := meta.page_count
    file_size_kb := meta.file_size_kb
    is_processed := true
    notes := verification.verification_summary }

/-- The `persons_intel` lookup (lines 672-675 and 699): the dict
comprehension keyed by entry name keeps the last entry per name, so the
lookup finds the last matching list element. -/
def personsIntelGet (l : List PersonIntel) (name : String) : Option PersonIntel :=
  l.reverse.find? (fun i => i.name == name)

/-- The victim-protection predicate (lines 683-685): explicit
`possible_victim` flag on the verified entry, or a protected keyword
occurring in the lowercased stripped name. -/
def victimHit (person : VerifiedPerson) : Bool :=
  person.possible_victim ||
    VICTIM_PROTECTION_KEYWORDS.any (fun kw =>
      strContainsSub (strLower (pyStrip person.name)) kw)

/-- The victim-diversion conflict record (lines 687-694). -/
def victimConflictRow (document_id : Option Nat) (name : String) : ConflictRow :=
  { entity_type := "person"
    entity_id := document_id
    conflict_field := "victim_flag"
    document_a_id := document_id
    document_a_claim := "Possible victim: " ++ name
    document_b_claim := "Requires human review before any database write" }

/-- One iteration of the verified-persons loop (lines 677-737). -/
def writePersonStep (pIntel : List PersonIntel) (document_id : Option Nat)
    (acc : DB × WriteResults) (person : VerifiedPerson) : DB × WriteResults :=
  let db := acc.1
  let res := acc.2
  let name := pyStrip person.name
  -- `if not name or len(name) < 2: continue`
  if name.length < 2 then acc
  else if victimHit person then
    -- flag and skip, never write
    (insertConflictRow db (victimConflictRow document_id name),
     { res with victim_flags := res.victim_flags + 1 })
  else
    let intel := personsIntelGet pIntel name
    -- `power = intel.get("power_index", {})`
    let power : PowerIndex := ((intel.map (fun i => i.power_index)).getD none).getD {}
    let person_record : PersonUpsertRec :=
      { full_name := name
        confidence := person.confidence
        redaction_status := if person.is_redacted then "partial" else "none"
        name_recovered := person.name_recovered
        power_public_profile := power.public_profile
        power_institutional := power.institutional
        power_network_centrality := power.network_centrality
        power_corroboration := power.corroboration
        upgrade_gap_note := person.upgrade_gap
        victim_protected := false
        is_victim := false
        flagged_for_review := person.requires_human_review
        -- `if intel.get("category_inference"):` — set only when truthy
        category := match intel with
          | some i => match i.category_inference with
            | some c => if c == "" then none else some c
            | none => none
          | none => none }
    let up := upsertPersonRow db person_record
    let db2 := upsertPersonDocRow up.1
      { person_id := up.2, document_id := document_id, confidence := person.confidence }
    (db2, { res with persons_written := res.persons_written + 1 })

/-- The verified-persons loop. -/
def writePersonsPhase (pIntel : List PersonIntel) (document_id : Option Nat)
    (persons : List VerifiedPerson) (acc : DB × WriteResults) : DB × WriteResults :=
  persons.foldl (writePersonStep pIntel document_id) acc

/-- One iteration of the verified-locations loop (lines 742-760); the
third state component is the in-memory `location_id_map`
(a Python dict: assignment prepends, lookup takes the most recent). -/
def writeLocationStep (acc : DB × WriteResults × List (String × Nat))
    (location : VerifiedLocation) : DB × WriteResults × List (String × Nat) :=
  let db := acc.1
  let res := acc.2.1
  let locMap := acc.2.2
  let name := pyStrip location.name
  if name.length < 2 then acc
  else
    let up := upsertLocationRow db name location.location_type location.confidence
    (up.1,
     { res with locations_written := res.locations_written + 1 },
     (name, up.2) :: locMap)

/-- The verified-locations loop. -/
def writeLocationsPhase (locations : List VerifiedLocation)
    (acc : DB × WriteResults × List (String × Nat)) :
    DB × WriteResults × List (String × Nat) :=
  locations.foldl writeLocationStep acc

/-- Linking one present person to an event (lines 793-803): look the
person up by exact name and upsert the junction; silently skip when the
lookup finds nothing. -/
def linkEventPerson (event_id : Nat) (confidence : String) (db : DB)
    (person_name : String) : DB :=
  match selectPersonIdByName db person_name with
  | some pid =>
    upsertEventPersonRow db { event_id := event_id, person_id := pid, confidence := confidence }
  | none => db

/-- One iteration of the verified-events loop (lines 763-803). -/
def writeEventStep (document_id : Option Nat) (locMap : List (String × Nat))
    (acc : DB × WriteResults) (event : VerifiedEvent) : DB × WriteResults :=
  let db := acc.1
  let res := acc.2
  -- `location_id = location_id_map.get(location_name) if location_name else None`
  let location_id : Option Nat := match event.location with
    | some l => if l == "" then none
                else (locMap.find? (fun kv => kv.1 == l)).map (fun kv => kv.2)
    | none => none
  let title := match event.description with
    | some d => d
    | none => (event.event_type.getD "Event") ++ " — " ++ (event.date.getD "unknown date")
  let event_record : EventRow :=
    { event_type := event.event_type.getD "other"
      title := title
      event_date := event.date
      date_precision := event.date_precision
      primary_location_id := location_id
      confidence := event.confidence
      upgrade_gap_note := event.upgrade_gap
      notes := event.verification_notes }
  let ins := insertEventRow db event_record
  let db2 := insertEventDocRow ins.1
    { event_id := ins.2, document_id := document_id, support_type := "primary_proof" }
  let db3 := event.persons_present.foldl (linkEventPerson ins.2 event.confidence) db2
  (db3, { res with events_written := res.events_written + 1 })

/-- The verified-events loop. -/
def writeEventsPhase (document_id : Option Nat) (locMap : List (String × Nat))
    (events : List VerifiedEvent) (acc : DB × WriteResults) : DB × WriteResults :=
  events.foldl (writeEventStep document_id locMap) acc

/-- One iteration of the relationships loop (lines 806-823): resolve
both names; skip entirely when either lookup fails; otherwise upsert
keyed by the ordered id pair. -/
def writeRelStep (document_id : Option Nat) (db : DB) (rel : RelDet) : DB :=
  match selectPersonIdByName db rel.person_a, selectPersonIdByName db rel.person_b with
  | some aId, some bId =>
    upsertRelRow db
      { person_a_id := aId
        person_b_id := bId
        relationship_type := rel.relationship_type
        evidence_strength := rel.evidence_strength
        co_occurrence_count := rel.co_occurrence_count
        notes := rel.notes
        -- `[document_id] if document_id else []` (0 would be falsy)
        source_document_ids := match document_id with
          | some d => if d == 0 then [] else [d]
          | none => [] }
  | _, _ => db

/-- The relationships loop. -/
def writeRelationshipsPhase (document_id : Option Nat) (rels : List RelDet)
    (db : DB) : DB :=
  rels.foldl (writeRelStep document_id) db

/-- One iteration of the detected-conflicts loop (lines 826-835). -/
def writeConflictStep (document_id : Option Nat) (acc : DB × WriteResults)
    (conflict : ConflictDetected) : DB × WriteResults :=
  (insertConflictRow acc.1
    { entity_type := conflict.conflict_type
      entity_id := document_id
      conflict_field := conflict.description
      document_a_id := document_id
      document_a_claim := conflict.document_claim
      document_b_claim := conflict.conflicting_claim },
   { acc.2 with conflicts_logged := acc.2.conflicts_logged + 1 })

/-- The detected-conflicts loop. -/
def writeConflictsPhase (document_id : Option Nat) (conflicts : List ConflictDetected)
    (acc : DB × WriteResults) : DB × WriteResults :=
  conflicts.foldl (writeConflictStep document_id) acc

/-- The processing-log record (lines 844-856), minus `completed_at`. -/
def buildLogRecord (document_id : Option Nat) (batch_id : String)
    (res : WriteResults) (total_tokens : Nat) : LogRow :=
  { agent_name := "full_pipeline"
    document_id := document_id
    batch_id := batch_id
    status := "complete"
    persons_extracted := res.persons_written
    locations_extracted := res.locations_written
    events_created := res.events_written
    conflicts_flagged := res.conflicts_logged
    model_used := "scout:" ++ SCOUT_MODEL ++ " | verify:" ++ VERIFICATION_MODEL
                    ++ " | decision:" ++ DECISION_MODEL
    tokens_used := total_tokens }

/-- Steps 3-7 of the writer, applied after the verified-persons loop. -/
def writeRest (locations : List VerifiedLocation) (events : List VerifiedEvent)
    (rels : List RelDet) (conflicts : List ConflictDetected) (batch_id : String)
    (total_tokens : Nat) (document_id : Option Nat) (st : DB × WriteResults) :
    DB × WriteResults :=
  let lRes := writeLocationsPhase locations (st.1, st.2, [])
  let eRes := writeEventsPhase document_id lRes.2.2 events (lRes.1, lRes.2.1)
  let rDb := writeRelationshipsPhase document_id rels eRes.1
  let cRes := writeConflictsPhase document_id conflicts (rDb, eRes.2)
  (insertLogRow cRes.1 (buildLogRecord document_id batch_id cRes.2 total_tokens),
   cRes.2)

/-- The writer body over its extracted inputs: document upsert, then the
persons loop, then steps 3-7. -/
def writeCore (docRecord : DocRow) (pIntel : List PersonIntel)
    (persons : List VerifiedPerson) (locations : List VerifiedLocation)
    (events : List VerifiedEvent) (rels : List RelDet)
    (conflicts : List ConflictDetected) (batch_id : String) (total_tokens : Nat)
    (db : DB) : DB × WriteResults :=
  let docRes := upsertDocumentRow db docRecord
  let document_id : Option Nat := some docRes.2
  writeRest locations events rels conflicts batch_id total_tokens document_id
    (writePersonsPhase pIntel document_id persons
      (docRes.1, { document_id := document_id }))

/-- `write_to_database` (lines 618-866): writes all agent outputs to the
store and returns the result summary. -/
def writeToDatabase (md5hex : String → String) (document_meta : DocumentMeta)
    (scout_data : ScoutData) (verification_data : VerificationData)
    (decision_data : DecisionData) (batch_id : String) (db : DB) :
    DB × WriteResults :=
  writeCore (buildDocRecord md5hex document_meta scout_data verification_data batch_id)
    decision_data.persons_intelligence
    verification_data.verified_persons
    verification_data.verified_locations
    verification_data.verified_events
    decision_data.relationship_determinations
    verification_data.conflicts_detected
    batch_id
    (scout_data.tokensUsed + verification_data.tokensUsed + decision_data.tokensUsed)
    db

/-! ## Context assembler `get_database_context` (pipeline.py lines 874-908) -/

/-- One person line of the context summary (lines 890-893).  The store
returns `null` for an unset category; Python `dict.get` then yields
`None`, which the f-string renders as `"None"` (the `"unknown"` default
only applies to a missing key, which the select never produces). -/
def personContextLine (p : PersonRow) : String :=
  "  - " ++ p.full_name ++ " | confidence: " ++ p.confidence ++
    " | docs: " ++ toString p.total_document_count ++
    " | category: " ++ (match p.category with | some c => c | none => "None")

/-- One location line of the context summary (lines 903-906). -/
def locationContextLine (l : LocationRow) : String :=
  "  - " ++ l.name ++ " | type: " ++ l.location_type ++
    " | visits: " ++ toString l.total_visit_count

/-- The no-match sentinel (line 908). -/
def noRecordsSentinel : String := "No existing records found for these entities."

/-- The person block of the context summary (lines 881-893): skipped
when no person names were extracted; the query matches the first 20
names by exact natural key. -/
def personPartsOf (db : DB) (person_names : List String) : List String :=
  if person_names.isEmpty then []
  else
    let existing := db.persons.filter (fun p => (person_names.take 20).contains p.full_name)
    if existing.isEmpty then []
    else "KNOWN PERSONS IN DATABASE:" :: existing.map personContextLine

/-- The location block of the context summary (lines 895-906): first 10
names by exact natural key. -/
def locationPartsOf (db : DB) (location_names : List String) : List String :=
  if location_names.isEmpty then []
  else
    let existing_locs := db.locations.filter (fun l => (location_names.take 10).contains l.name)
    if existing_locs.isEmpty then []
    else "\nKNOWN LOCATIONS IN DATABASE:" :: existing_locs.map locationContextLine

/-- `get_database_context`: query the store with at most the first 20
person names and 10 location names by exact natural key and render the
summary, or the sentinel when nothing was found. -/
def getDatabaseContext (db : DB) (person_names location_names : List String) : String :=
  let context_parts := personPartsOf db person_names ++ locationPartsOf db location_names
  if context_parts.isEmpty then noRecordsSentinel else joinNL context_parts

/-! ## Batch orchestrator `process_batch` (pipeline.py lines 990-1020) -/

/-- The per-document result dict returned by `process_document`
(lines 971-981), minus the wall-clock `total_ms`. -/
structure PipelineResult where
  document_id : Option Nat := none
  intelligence_value : Option String := none
  evidence_chain : Option String := none
  persons_written : Nat := 0
  locations_written : Nat := 0
  events_written : Nat := 0
  victim_flags : Nat := 0
  pattern_flags : List PatternFlag := []
deriving DecidableEq, Repr

/-- One entry of the batch results list: either a success entry carrying
the pipeline result, or an error entry carrying the exception message. -/
structure BatchEntry where
  url : String := ""
  status : String := ""
  result : Option PipelineResult := none
  error : Option String := none
deriving DecidableEq, Repr

/-- The success entry (line 1004). -/
def successEntry (url : String) (r : PipelineResult) : BatchEntry :=
  { url := url, status := "success", result := some r }

/-- The error entry (line 1007). -/
def errorEntry (url : String) (e : String) : BatchEntry :=
  { url := url, status := "error", error := some e }

/-- `process_batch`: run the per-document pipeline (modelled abstractly
as `proc`, raising modelled as `Except.error`) on each URL in order,
catching failures as error entries.  The politeness delay between
documents is real time and not modelled. -/
def processBatch (proc : String → Except String PipelineResult)
    (urls : List String) : List BatchEntry :=
  urls.foldl (fun results url =>
    results ++ [match proc url with
      | Except.ok result => successEntry url result
      | Except.error e => errorEntry url e]) []

/-- The success count of the batch summary (line 1015):
`len([r for r in results if r["status"] == "success"])`. -/
def batchSuccessful (results : List BatchEntry) : Nat :=
  (results.filter (fun r => r.status == "success")).length

/-! ## General helper lemmas -/

/-- Fold invariant: a property preserved by every step (under a
per-element condition) holds after the fold. -/
theorem foldl_induct {α β : Type} (f : β → α → β) (P : β → Prop) (Q : α → Prop)
    (step : ∀ b a, Q a → P b → P (f b a)) :
    ∀ (l : List α), (∀ a ∈ l, Q a) → ∀ b, P b → P (l.foldl f b) := by
  intro l
  induction l with
  | nil => intro _ b hb; exact hb
  | cons x xs ih =>
    intro hq b hb
    exact ih (fun a ha => hq a (List.mem_cons_of_mem x ha))
      (f b x) (step b x (hq x (List.mem_cons_self x xs)) hb)

/-- Fold frame: a projection left unchanged by every step is unchanged
by the fold. -/
theorem foldl_frame {α β γ : Type} (f : β → α → β) (g : β → γ)
    (h : ∀ b a, g (f b a) = g b) :
    ∀ (l : List α) (b : β), g (l.foldl f b) = g b := by
  intro l
  induction l with
  | nil => intro b; rfl
  | cons x xs ih => intro b; rw [List.foldl_cons, ih, h]

/-- Left cancellation for string append. -/
theorem strAppend_left_cancel {s a b : String} (h : s ++ a = s ++ b) : a = b := by
  have hd := congrArg String.data h
  rw [String.data_append, String.data_append] at hd
  have hab := List.append_cancel_left hd
  cases a; cases b; simpa using congrArg String.mk hab

/-- Boolean form of left cancellation. -/
theorem strAppend_beq (s a b : String) : (s ++ a == s ++ b) = (a == b) := by
  by_cases h : a = b
  · subst h; simp
  · have hne : ¬(s ++ a = s ++ b) := fun hc => h (strAppend_left_cancel hc)
    simp [h, hne]

/-- A member of a list of strings occurs inside their newline join. -/
theorem joinNL_mem_infix {x : String} :
    ∀ {l : List String}, x ∈ l → x.data <:+: (joinNL l).data := by
  intro l
  induction l with
  | nil => intro h; cases h
  | cons a t ih =>
    intro h
    cases t with
    | nil =>
      have hx : x = a := by simpa using h
      subst hx
      exact List.infix_refl _
    | cons b t2 =>
      rcases List.mem_cons.mp h with h1 | h2
      · subst h1
        show x.data <:+: (x ++ "\n" ++ joinNL (b :: t2)).data
        rw [String.data_append, String.data_append]
        exact ((List.prefix_append x.data _).trans
          (List.prefix_append _ _)).isInfix
      · have hin := ih h2
        show x.data <:+: (a ++ "\n" ++ joinNL (b :: t2)).data
        rw [String.data_append]
        exact hin.trans (List.suffix_append _ _).isInfix

/-! ## C10: empty-text safety of the PDF quality assessment -/

/-- C10: for a fetched PDF whose extracted text is empty, the
readable-character ratio is guarded to 0 (no division by zero) and the
OCR quality is reported as poor; the assessment is total on empty
extractions. -/
theorem C10_empty_text_safety (url : String) (pages : List String) (rawBytes : Nat)
    (h : (pdfRawText pages).length = 0) :
    textQualityScore (pdfRawText pages) = 0 ∧
    (fetchPdfDocument url pages rawBytes).ocr_quality = "poor" := by
  have hq : textQualityScore (pdfRawText pages) = 0 := by
    simp [textQualityScore, h]
  refine ⟨hq, ?_⟩
  show ocrQualityOf (pdfRawText pages) = "poor"
  unfold ocrQualityOf
  rw [hq]
  rw [if_neg (by norm_num), if_neg (by norm_num), if_neg (by norm_num)]

/-- C10 witness: a zero-page PDF (pdfplumber can return no pages). -/
theorem C10_empty_text_safety_witness :
    textQualityScore (pdfRawText []) = 0 ∧
    (fetchPdfDocument "https://doj.example/d.pdf" [] 0).ocr_quality = "poor" :=
  C10_empty_text_safety "https://doj.example/d.pdf" [] 0 rfl

/-! ## C4: malformed-oracle resilience of the three stage parsers -/

/-- C4 counterexample: on an unparseable oracle response the scout and
verification parsers do return fallbacks with requires-human-review set,
but the decision-engine fallback dict (pipeline.py lines 586-594) has no
requires-human-review key at all, so the claim that all three fallbacks
set it to true fails at this concrete input. -/
theorem C4_counterexample :
    runScoutAgent none "not json" = scoutFallback "not json" ∧
    (scoutFallback "not json").requires_human_review = true ∧
    "requires_human_review" ∈ scoutFallbackKeys ∧
    runVerificationHarness none = verificationFallback ∧
    verificationFallback.requires_human_review = true ∧
    "requires_human_review" ∈ verificationFallbackKeys ∧
    runDecisionEngine none = decisionFallback ∧
    "requires_human_review" ∉ decisionFallbackKeys := by
  refine ⟨rfl, rfl, by decide, rfl, rfl, by decide, rfl, by decide⟩

/-- C4 (amended): every stage parser substitutes its well-formed
fallback instead of failing on an unparseable response; the scout and
verification fallbacks carry requires-human-review = true, while the
decision fallback instead signals diversion through
intelligence-value = low and explicit human-review narratives. -/
theorem C4_malformed_oracle_resilience (raw : String) :
    runScoutAgent none raw = scoutFallback raw ∧
    (scoutFallback raw).requires_human_review = true ∧
    runVerificationHarness none = verificationFallback ∧
    verificationFallback.requires_human_review = true ∧
    runDecisionEngine none = decisionFallback ∧
    decisionFallback.intelligence_value = "low" ∧
    decisionFallback.intelligence_summary = "Processing error — human review required" ∧
    decisionFallback.evidence_chain = "Unable to generate — human review required" :=
  ⟨rfl, rfl, rfl, rfl, rfl, rfl, rfl, rfl⟩

/-! ## C7: the truncation window and the (absent) partial-coverage flag -/

/-- A document whose normalized text exceeds the processing window. -/
def docLongC7 : DocumentMeta :=
  { url := "https://doj.example/long.pdf"
    raw_text := String.mk (List.replicate 80001 'x') }

/-- A document whose normalized text is within the window. -/
def docShortC7 : DocumentMeta :=
  { url := "https://doj.example/short.pdf", raw_text := "short text" }

/-- A fixed oracle response, used to compare runs. -/
def oracleC7 : DocumentMeta → String → Option ScoutData × String :=
  fun _ _ => (some {}, "")

/-- The fixed oracle returns the same response on every input. -/
theorem oracleC7_const (d : DocumentMeta) (c : String) :
    oracleC7 d c = (some {}, "") := rfl

/-- The chunk component of the scout phase. -/
theorem scoutPhase_fst (doc : DocumentMeta)
    (oracle : DocumentMeta → String → Option ScoutData × String) :
    (scoutPhase doc oracle).1 = chunkDocText doc.raw_text := rfl

/-- The extraction-output component of the scout phase: a function of
the oracle response alone. -/
theorem scoutPhase_snd (doc : DocumentMeta)
    (oracle : DocumentMeta → String → Option ScoutData × String) :
    (scoutPhase doc oracle).2 =
      runScoutAgent (oracle doc (chunkDocText doc.raw_text)).1
        (oracle doc (chunkDocText doc.raw_text)).2 := rfl

/-- C7 counterexample: the 80001-character document is truncated to the
window, yet the extraction output is exactly the output of an
untruncated document under the same oracle response — the code only
prints a console warning, so no partial-coverage flag is emitted in the
extraction output. -/
theorem C7_counterexample :
    docLongC7.raw_text.length > MAX_CHARS ∧
    (scoutPhase docLongC7 oracleC7).1 = strTake docLongC7.raw_text MAX_CHARS ∧
    (scoutPhase docLongC7 oracleC7).1 ≠ docLongC7.raw_text ∧
    (scoutPhase docLongC7 oracleC7).2 = (scoutPhase docShortC7 oracleC7).2 := by
  have hlen : docLongC7.raw_text.length = 80001 := by
    show (String.mk (List.replicate 80001 'x')).length = 80001
    show (List.replicate 80001 'x').length = 80001
    exact List.length_replicate 80001 'x'
  have hgt : docLongC7.raw_text.length > MAX_CHARS := by
    rw [hlen]; norm_num [MAX_CHARS]
  have hchunk : chunkDocText docLongC7.raw_text = strTake docLongC7.raw_text MAX_CHARS := by
    unfold chunkDocText
    rw [if_pos hgt]
  refine ⟨hgt, ?_, ?_, ?_⟩
  · rw [scoutPhase_fst]; exact hchunk
  · rw [scoutPhase_fst]
    intro hcontra
    have h1 : (chunkDocText docLongC7.raw_text).length = docLongC7.raw_text.length :=
      congrArg String.length hcontra
    rw [hchunk] at h1
    have h2 : (strTake docLongC7.raw_text MAX_CHARS).length = 80000 := by
      show ((docLongC7.raw_text.data.take MAX_CHARS).length = 80000)
      rw [List.length_take]
      rw [show docLongC7.raw_text.data.length = 80001 from hlen]
      norm_num [MAX_CHARS]
    rw [h2, hlen] at h1
    exact absurd h1 (by norm_num)
  · rw [scoutPhase_snd, scoutPhase_snd]
    show runScoutAgent (some {}) "" = runScoutAgent (some {}) ""
    rfl

/-- C7 (amended): text beyond the 80000-character window is truncated to
the window before extraction (with only a console notice), within-window
text passes unchanged, and the extraction output is a function of the
oracle response alone — no partial-coverage flag distinguishes a
truncated run from an untruncated one. -/
theorem C7_truncation_window :
    (∀ (doc : DocumentMeta) (oracle : DocumentMeta → String → Option ScoutData × String),
      doc.raw_text.length > MAX_CHARS →
      (scoutPhase doc oracle).1 = strTake doc.raw_text MAX_CHARS) ∧
    (∀ (doc : DocumentMeta) (oracle : DocumentMeta → String → Option ScoutData × String),
      ¬doc.raw_text.length > MAX_CHARS →
      (scoutPhase doc oracle).1 = doc.raw_text) ∧
    (∀ (d₁ d₂ : DocumentMeta)
      (o₁ o₂ : DocumentMeta → String → Option ScoutData × String),
      o₁ d₁ (chunkDocText d₁.raw_text) = o₂ d₂ (chunkDocText d₂.raw_text) →
      (scoutPhase d₁ o₁).2 = (scoutPhase d₂ o₂).2) := by
  refine ⟨?_, ?_, ?_⟩
  · intro doc oracle h
    rw [scoutPhase_fst, chunkDocText, if_pos h]
  · intro doc oracle h
    rw [scoutPhase_fst, chunkDocText, if_neg h]
  · intro d₁ d₂ o₁ o₂ h
    rw [scoutPhase_snd, scoutPhase_snd, h]

/-- C7 witness: the amended theorem applied to the concrete long and
short documents. -/
theorem C7_truncation_window_witness :
    (scoutPhase docLongC7 oracleC7).1 = strTake docLongC7.raw_text MAX_CHARS ∧
    (scoutPhase docShortC7 oracleC7).1 = docShortC7.raw_text ∧
    (scoutPhase docLongC7 oracleC7).2 = (scoutPhase docShortC7 oracleC7).2 := by
  refine ⟨C7_truncation_window.1 docLongC7 oracleC7 ?_,
          C7_truncation_window.2.1 docShortC7 oracleC7 (by decide),
          C7_truncation_window.2.2 docLongC7 docShortC7 oracleC7 oracleC7
            ((oracleC7_const _ _).trans (oracleC7_const _ _).symm)⟩
  show (String.mk (List.replicate 80001 'x')).length > MAX_CHARS
  show (List.replicate 80001 'x').length > MAX_CHARS
  rw [List.length_replicate]
  norm_num [MAX_CHARS]

/-! ## C6: partial-failure isolation of the batch orchestrator -/

/-- C6: the batch results are exactly one entry per URL in order — a
success entry when the per-document pipeline returns, an error entry
recording the message when it raises — and the reported success count is
the number of URLs whose processing succeeded; a failure on one document
never aborts the remaining batch. -/
theorem C6_partial_failure_isolation
    (proc : String → Except String PipelineResult) (urls : List String) :
    processBatch proc urls = urls.map (fun url =>
      match proc url with
      | Except.ok result => successEntry url result
      | Except.error e => errorEntry url e) ∧
    (processBatch proc urls).length = urls.length ∧
    batchSuccessful (processBatch proc urls) = urls.countP (fun url =>
      match proc url with
      | Except.ok _ => true
      | Except.error _ => false) := by
  have key : ∀ (l : List String) (acc : List BatchEntry),
      l.foldl (fun results url =>
        results ++ [match proc url with
          | Except.ok result => successEntry url result
          | Except.error e => errorEntry url e]) acc =
      acc ++ l.map (fun url =>
        match proc url with
        | Except.ok result => successEntry url result
        | Except.error e => errorEntry url e) := by
    intro l
    induction l with
    | nil => intro acc; simp
    | cons x xs ih => intro acc; rw [List.foldl_cons, ih, List.map_cons]; simp
  have h1 : processBatch proc urls = urls.map (fun url =>
      match proc url with
      | Except.ok result => successEntry url result
      | Except.error e => errorEntry url e) := by
    unfold processBatch
    rw [key]
    simp
  refine ⟨h1, ?_, ?_⟩
  · rw [h1, List.length_map]
  · rw [h1]
    unfold batchSuccessful
    rw [← List.countP_eq_length_filter, List.countP_map]
    apply List.countP_congr
    intro url _
    cases h : proc url <;> simp [h, Function.comp, successEntry, errorEntry]
/-! ## C8: the context assembler contract -/

/-- Taking the first 20 names changes nothing about emptiness. -/
theorem take20_isEmpty (l : List String) : (l.take 20).isEmpty = l.isEmpty := by
  cases l <;> simp

/-- Taking the first 10 names changes nothing about emptiness. -/
theorem take10_isEmpty (l : List String) : (l.take 10).isEmpty = l.isEmpty := by
  cases l <;> simp

/-- The person block is empty whenever the query matches nothing. -/
theorem personPartsOf_empty (db : DB) (pn : List String)
    (hex : (db.persons.filter (fun p => (pn.take 20).contains p.full_name)).isEmpty = true) :
    personPartsOf db pn = [] := by
  simp only [personPartsOf]
  cases hpn : pn.isEmpty
  · rw [if_neg (by decide), hex, if_pos rfl]
  · rw [if_pos rfl]

/-- The person block when the query has matches. -/
theorem personPartsOf_cons (db : DB) (pn : List String)
    (hpn : pn.isEmpty = false)
    (hex : (db.persons.filter (fun p => (pn.take 20).contains p.full_name)).isEmpty = false) :
    personPartsOf db pn = "KNOWN PERSONS IN DATABASE:" ::
      (db.persons.filter (fun p => (pn.take 20).contains p.full_name)).map
        personContextLine := by
  simp only [personPartsOf]
  rw [hpn, hex, if_neg (by decide), if_neg (by decide)]

/-- The location block is empty whenever the query matches nothing. -/
theorem locationPartsOf_empty (db : DB) (ln : List String)
    (hex : (db.locations.filter (fun l => (ln.take 10).contains l.name)).isEmpty = true) :
    locationPartsOf db ln = [] := by
  simp only [locationPartsOf]
  cases hln : ln.isEmpty
  · rw [if_neg (by decide), hex, if_pos rfl]
  · rw [if_pos rfl]

/-- The location block when the query has matches. -/
theorem locationPartsOf_cons (db : DB) (ln : List String)
    (hln : ln.isEmpty = false)
    (hex : (db.locations.filter (fun l => (ln.take 10).contains l.name)).isEmpty = false) :
    locationPartsOf db ln = "\nKNOWN LOCATIONS IN DATABASE:" ::
      (db.locations.filter (fun l => (ln.take 10).contains l.name)).map
        locationContextLine := by
  simp only [locationPartsOf]
  rw [hln, hex, if_neg (by decide), if_neg (by decide)]

/-- A store with one location row carrying a confidence, used to show
what the location summary actually lists. -/
def dbC8X : DB :=
  { locations := [{ id := 5, name := "Paris", location_type := "city",
                    confidence := "confirmed", total_visit_count := 3 }] }

/-- C8 counterexample: with one matching location (stored confidence
"confirmed"), the summary lists name, type and visit count only — it
contains neither the confidence value nor any document count, so the
claim that the summary lists each match's confidence and document count
fails at this concrete input. -/
theorem C8_counterexample :
    getDatabaseContext dbC8X [] ["Paris"] =
      "\nKNOWN LOCATIONS IN DATABASE:\n  - Paris | type: city | visits: 3" ∧
    (dbC8X.locations.map (fun l => l.confidence)) = ["confirmed"] ∧
    strContainsSub (getDatabaseContext dbC8X [] ["Paris"]) "confirmed" = false ∧
    strContainsSub (getDatabaseContext dbC8X [] ["Paris"]) "docs:" = false := by
  refine ⟨by decide, by decide, by decide, by decide⟩

/-- C8 (amended): the store is consulted with at most the first 20
person names and 10 location names by exact natural key; when the
queries match nothing the explicit sentinel is returned rather than an
empty string; otherwise each matching person contributes a line with
name, confidence, document count and category, and each matching
location a line with name, type and visit count. -/
theorem C8_context_assembler (db : DB) (pn ln : List String) :
    getDatabaseContext db pn ln = getDatabaseContext db (pn.take 20) (ln.take 10) ∧
    ((db.persons.filter (fun p => (pn.take 20).contains p.full_name)).isEmpty = true →
     (db.locations.filter (fun l => (ln.take 10).contains l.name)).isEmpty = true →
     getDatabaseContext db pn ln = noRecordsSentinel) ∧
    (∀ p ∈ db.persons, p.full_name ∈ pn.take 20 →
      (personContextLine p).data <:+: (getDatabaseContext db pn ln).data) ∧
    (∀ l ∈ db.locations, l.name ∈ ln.take 10 →
      (locationContextLine l).data <:+: (getDatabaseContext db pn ln).data) := by
  refine ⟨?_, ?_, ?_, ?_⟩
  · simp only [getDatabaseContext, personPartsOf, locationPartsOf, take20_isEmpty,
      take10_isEmpty, List.take_take, Nat.min_self]
  · intro h1 h2
    simp only [getDatabaseContext]
    rw [personPartsOf_empty db pn h1, locationPartsOf_empty db ln h2]
    rfl
  · intro p hp hmem
    have hpn : pn.isEmpty = false := by
      cases pn
      · simp at hmem
      · rfl
    have hfil : p ∈ db.persons.filter (fun q => (pn.take 20).contains q.full_name) :=
      List.mem_filter.mpr ⟨hp, List.elem_eq_true_of_mem hmem⟩
    have hex : (db.persons.filter (fun q => (pn.take 20).contains q.full_name)).isEmpty
        = false := by
      cases hfe : db.persons.filter (fun q => (pn.take 20).contains q.full_name)
      · rw [hfe] at hfil; cases hfil
      · rfl
    simp only [getDatabaseContext]
    rw [personPartsOf_cons db pn hpn hex]
    rw [if_neg (by simp)]
    exact joinNL_mem_infix (List.mem_append_left _
      (List.mem_cons_of_mem _ (List.mem_map_of_mem personContextLine hfil)))
  · intro l hl hmem
    have hln : ln.isEmpty = false := by
      cases ln
      · simp at hmem
      · rfl
    have hfil : l ∈ db.locations.filter (fun q => (ln.take 10).contains q.name) :=
      List.mem_filter.mpr ⟨hl, List.elem_eq_true_of_mem hmem⟩
    have hex : (db.locations.filter (fun q => (ln.take 10).contains q.name)).isEmpty
        = false := by
      cases hfe : db.locations.filter (fun q => (ln.take 10).contains q.name)
      · rw [hfe] at hfil; cases hfil
      · rfl
    simp only [getDatabaseContext]
    rw [locationPartsOf_cons db ln hln hex]
    rw [if_neg (by simp)]
    exact joinNL_mem_infix (List.mem_append_right _
      (List.mem_cons_of_mem _ (List.mem_map_of_mem locationContextLine hfil)))

/-- A store holding one known person and one known location, for the
context-assembler witness. -/
def dbC8W : DB :=
  { persons := [{ id := 2, full_name := "John Smith", confidence := "corroborated",
                  total_document_count := 4, category := some "finance" }]
    locations := [{ id := 5, name := "Paris", location_type := "city",
                    confidence := "confirmed", total_visit_count := 3 }] }

/-- C8 witness: sentinel on an empty store, and line containment for a
concrete person and location match. -/
theorem C8_context_assembler_witness :
    getDatabaseContext emptyDB ["John Smith"] [] = noRecordsSentinel ∧
    (personContextLine { id := 2, full_name := "John Smith", confidence := "corroborated",
                         total_document_count := 4, category := some "finance" }).data <:+:
      (getDatabaseContext dbC8W ["John Smith"] ["Paris"]).data ∧
    (locationContextLine { id := 5, name := "Paris", location_type := "city",
                           confidence := "confirmed", total_visit_count := 3 }).data <:+:
      (getDatabaseContext dbC8W ["John Smith"] ["Paris"]).data := by
  refine ⟨(C8_context_assembler emptyDB ["John Smith"] []).2.1 (by decide) (by decide),
          (C8_context_assembler dbC8W ["John Smith"] ["Paris"]).2.2.1 _ (by decide) (by decide),
          (C8_context_assembler dbC8W ["John Smith"] ["Paris"]).2.2.2 _ (by decide) (by decide)⟩

/-! ## C9: the implicit short-name guard of the record writer -/

/-- A verified person whose stripped name is shorter than 2 characters
is a no-op for the persons loop. -/
theorem writePersonStep_short (pIntel : List PersonIntel) (document_id : Option Nat)
    (acc : DB × WriteResults) (e : VerifiedPerson)
    (h : (pyStrip e.name).length < 2) :
    writePersonStep pIntel document_id acc e = acc := by
  simp only [writePersonStep]
  rw [if_pos h]

/-- Dropping a short-named person entry anywhere in the list does not
change the persons loop. -/
theorem writePersonsPhase_skip (pIntel : List PersonIntel) (document_id : Option Nat)
    (l₁ l₂ : List VerifiedPerson) (e : VerifiedPerson) (acc : DB × WriteResults)
    (h : (pyStrip e.name).length < 2) :
    writePersonsPhase pIntel document_id (l₁ ++ e :: l₂) acc =
    writePersonsPhase pIntel document_id (l₁ ++ l₂) acc := by
  unfold writePersonsPhase
  rw [List.foldl_append, List.foldl_append, List.foldl_cons,
    writePersonStep_short pIntel document_id _ e h]

/-- A verified location whose stripped name is shorter than 2 characters
is a no-op for the locations loop. -/
theorem writeLocationStep_short (acc : DB × WriteResults × List (String × Nat))
    (le : VerifiedLocation) (h : (pyStrip le.name).length < 2) :
    writeLocationStep acc le = acc := by
  simp only [writeLocationStep]
  rw [if_pos h]

/-- Dropping a short-named location entry anywhere in the list does not
change the locations loop. -/
theorem writeLocationsPhase_skip (m₁ m₂ : List VerifiedLocation) (le : VerifiedLocation)
    (acc : DB × WriteResults × List (String × Nat))
    (h : (pyStrip le.name).length < 2) :
    writeLocationsPhase (m₁ ++ le :: m₂) acc = writeLocationsPhase (m₁ ++ m₂) acc := by
  unfold writeLocationsPhase
  rw [List.foldl_append, List.foldl_append, List.foldl_cons, writeLocationStep_short _ le h]

/-- Steps 3-7 are unchanged when a short-named location entry is dropped. -/
theorem writeRest_locations_skip (m₁ m₂ : List VerifiedLocation) (le : VerifiedLocation)
    (events : List VerifiedEvent) (rels : List RelDet)
    (conflicts : List ConflictDetected) (batch_id : String) (total_tokens : Nat)
    (document_id : Option Nat) (st : DB × WriteResults)
    (h : (pyStrip le.name).length < 2) :
    writeRest (m₁ ++ le :: m₂) events rels conflicts batch_id total_tokens document_id st =
    writeRest (m₁ ++ m₂) events rels conflicts batch_id total_tokens document_id st := by
  simp only [writeRest]
  rw [writeLocationsPhase_skip m₁ m₂ le _ h]

/-- The writer core is unchanged when a short-named person entry is
dropped. -/
theorem writeCore_persons_skip (docRecord : DocRow) (pIntel : List PersonIntel)
    (l₁ l₂ : List VerifiedPerson) (e : VerifiedPerson)
    (locations : List VerifiedLocation) (events : List VerifiedEvent)
    (rels : List RelDet) (conflicts : List ConflictDetected) (batch_id : String)
    (total_tokens : Nat) (db : DB)
    (h : (pyStrip e.name).length < 2) :
    writeCore docRecord pIntel (l₁ ++ e :: l₂) locations events rels conflicts batch_id
      total_tokens db =
    writeCore docRecord pIntel (l₁ ++ l₂) locations events rels conflicts batch_id
      total_tokens db := by
  simp only [writeCore]
  rw [writePersonsPhase_skip pIntel _ l₁ l₂ e _ h]

/-- The writer core is unchanged when a short-named location entry is
dropped. -/
theorem writeCore_locations_skip (docRecord : DocRow) (pIntel : List PersonIntel)
    (persons : List VerifiedPerson) (m₁ m₂ : List VerifiedLocation)
    (le : VerifiedLocation) (events : List VerifiedEvent)
    (rels : List RelDet) (conflicts : List ConflictDetected) (batch_id : String)
    (total_tokens : Nat) (db : DB)
    (h : (pyStrip le.name).length < 2) :
    writeCore docRecord pIntel persons (m₁ ++ le :: m₂) events rels conflicts batch_id
      total_tokens db =
    writeCore docRecord pIntel persons (m₁ ++ m₂) events rels conflicts batch_id
      total_tokens db := by
  simp only [writeCore]
  rw [writeRest_locations_skip m₁ m₂ le _ _ _ _ _ _ _ h]

/-- C9: a verified person or location entry whose stripped name is empty
or shorter than 2 characters is skipped entirely by the record writer —
the whole write phase (store and result summary, hence also the victim
check and the written counts) is exactly as if the entry were absent. -/
theorem C9_short_name_guard (md5hex : String → String) (meta : DocumentMeta)
    (scout : ScoutData) (v : VerificationData) (dec : DecisionData)
    (batch_id : String) (db : DB) (e : VerifiedPerson) (le : VerifiedLocation)
    (l₁ l₂ : List VerifiedPerson) (m₁ m₂ : List VerifiedLocation) :
    ((pyStrip e.name).length < 2 →
      writeToDatabase md5hex meta scout { v with verified_persons := l₁ ++ e :: l₂ }
        dec batch_id db =
      writeToDatabase md5hex meta scout { v with verified_persons := l₁ ++ l₂ }
        dec batch_id db) ∧
    ((pyStrip le.name).length < 2 →
      writeToDatabase md5hex meta scout { v with verified_locations := m₁ ++ le :: m₂ }
        dec batch_id db =
      writeToDatabase md5hex meta scout { v with verified_locations := m₁ ++ m₂ }
        dec batch_id db) := by
  constructor
  · intro h
    exact writeCore_persons_skip
      (buildDocRecord md5hex meta scout { v with verified_persons := l₁ ++ e :: l₂ } batch_id)
      dec.persons_intelligence l₁ l₂ e v.verified_locations v.verified_events
      dec.relationship_determinations v.conflicts_detected batch_id
      (scout.tokensUsed + v.tokensUsed + dec.tokensUsed) db h
  · intro h
    exact writeCore_locations_skip
      (buildDocRecord md5hex meta scout { v with verified_locations := m₁ ++ le :: m₂ } batch_id)
      dec.persons_intelligence v.verified_persons m₁ m₂ le v.verified_events
      dec.relationship_determinations v.conflicts_detected batch_id
      (scout.tokensUsed + v.tokensUsed + dec.tokensUsed) db h

/-- A fixed hex digest standing in for the external md5 in concrete runs. -/
def md5W : String → String := fun _ => "9e107d9d372bb6826bd81d3542a419d6"

/-- C9 witness: dropping the short-named entries from concrete runs
leaves the write result unchanged. -/
theorem C9_short_name_guard_witness :
    writeToDatabase md5W { url := "https://doj.example/a.pdf" } {}
      { verified_persons := [{ name := "Alice Adams" }, { name := " J " }] } {} "batch"
      emptyDB =
    writeToDatabase md5W { url := "https://doj.example/a.pdf" } {}
      { verified_persons := [{ name := "Alice Adams" }] } {} "batch" emptyDB ∧
    writeToDatabase md5W { url := "https://doj.example/a.pdf" } {}
      { verified_locations := [{ name := "X" }] } {} "batch" emptyDB =
    writeToDatabase md5W { url := "https://doj.example/a.pdf" } {} {} {} "batch" emptyDB := by
  constructor
  · exact (C9_short_name_guard md5W { url := "https://doj.example/a.pdf" } {} {} {} "batch"
      emptyDB { name := " J " } { name := "X" } [{ name := "Alice Adams" }] [] [] []).1
      (by decide)
  · exact (C9_short_name_guard md5W { url := "https://doj.example/a.pdf" } {} {} {} "batch"
      emptyDB { name := " J " } { name := "X" } [{ name := "Alice Adams" }] [] [] []).2
      (by decide)

/-! ## Frame lemmas: which store fields each writer step touches -/

/-- Linking an event person touches only `event_persons`. -/
theorem linkEventPerson_frame (eid : Nat) (conf : String) (db : DB) (pname : String) :
    (linkEventPerson eid conf db pname).documents = db.documents ∧
    (linkEventPerson eid conf db pname).persons = db.persons ∧
    (linkEventPerson eid conf db pname).conflict_records = db.conflict_records := by
  simp only [linkEventPerson, upsertEventPersonRow]
  repeat' split
  all_goals exact ⟨rfl, rfl, rfl⟩

/-- The event-person link fold preserves documents. -/
theorem linkFold_documents (eid : Nat) (conf : String) (l : List String) (db : DB) :
    (l.foldl (linkEventPerson eid conf) db).documents = db.documents :=
  foldl_frame (linkEventPerson eid conf) (fun d => d.documents)
    (fun b a => (linkEventPerson_frame eid conf b a).1) l db

/-- The event-person link fold preserves persons. -/
theorem linkFold_persons (eid : Nat) (conf : String) (l : List String) (db : DB) :
    (l.foldl (linkEventPerson eid conf) db).persons = db.persons :=
  foldl_frame (linkEventPerson eid conf) (fun d => d.persons)
    (fun b a => (linkEventPerson_frame eid conf b a).2.1) l db

/-- The event-person link fold preserves conflict records. -/
theorem linkFold_conflicts (eid : Nat) (conf : String) (l : List String) (db : DB) :
    (l.foldl (linkEventPerson eid conf) db).conflict_records = db.conflict_records :=
  foldl_frame (linkEventPerson eid conf) (fun d => d.conflict_records)
    (fun b a => (linkEventPerson_frame eid conf b a).2.2) l db

/-- A persons-loop iteration never touches documents. -/
theorem writePersonStep_documents (pIntel : List PersonIntel) (document_id : Option Nat)
    (acc : DB × WriteResults) (p : VerifiedPerson) :
    (writePersonStep pIntel document_id acc p).1.documents = acc.1.documents := by
  simp only [writePersonStep, upsertPersonRow, upsertPersonDocRow, insertConflictRow]
  repeat' split
  all_goals rfl

/-- The persons loop never touches documents. -/
theorem writePersonsPhase_documents (pIntel : List PersonIntel) (document_id : Option Nat)
    (l : List VerifiedPerson) (acc : DB × WriteResults) :
    (writePersonsPhase pIntel document_id l acc).1.documents = acc.1.documents := by
  unfold writePersonsPhase
  exact foldl_frame (writePersonStep pIntel document_id) (fun st => st.1.documents)
    (fun b a => writePersonStep_documents pIntel document_id b a) l acc

/-- A locations-loop iteration touches only locations and its counters. -/
theorem writeLocationStep_frame (acc : DB × WriteResults × List (String × Nat))
    (l : VerifiedLocation) :
    (writeLocationStep acc l).1.documents = acc.1.documents ∧
    (writeLocationStep acc l).1.persons = acc.1.persons ∧
    (writeLocationStep acc l).1.conflict_records = acc.1.conflict_records ∧
    (writeLocationStep acc l).2.1.victim_flags = acc.2.1.victim_flags := by
  simp only [writeLocationStep, upsertLocationRow]
  repeat' split
  all_goals exact ⟨rfl, rfl, rfl, rfl⟩

/-- The locations loop: documents frame. -/
theorem writeLocationsPhase_documents (locations : List VerifiedLocation)
    (acc : DB × WriteResults × List (String × Nat)) :
    (writeLocationsPhase locations acc).1.documents = acc.1.documents := by
  unfold writeLocationsPhase
  exact foldl_frame writeLocationStep (fun st => st.1.documents)
    (fun b a => (writeLocationStep_frame b a).1) locations acc

/-- The locations loop: persons frame. -/
theorem writeLocationsPhase_persons (locations : List VerifiedLocation)
    (acc : DB × WriteResults × List (String × Nat)) :
    (writeLocationsPhase locations acc).1.persons = acc.1.persons := by
  unfold writeLocationsPhase
  exact foldl_frame writeLocationStep (fun st => st.1.persons)
    (fun b a => (writeLocationStep_frame b a).2.1) locations acc

/-- The locations loop: conflict-records frame. -/
theorem writeLocationsPhase_conflicts (locations : List VerifiedLocation)
    (acc : DB × WriteResults × List (String × Nat)) :
    (writeLocationsPhase locations acc).1.conflict_records = acc.1.conflict_records := by
  unfold writeLocationsPhase
  exact foldl_frame writeLocationStep (fun st => st.1.conflict_records)
    (fun b a => (writeLocationStep_frame b a).2.2.1) locations acc

/-- The locations loop: victim-counter frame. -/
theorem writeLocationsPhase_victims (locations : List VerifiedLocation)
    (acc : DB × WriteResults × List (String × Nat)) :
    (writeLocationsPhase locations acc).2.1.victim_flags = acc.2.1.victim_flags := by
  unfold writeLocationsPhase
  exact foldl_frame writeLocationStep (fun st => st.2.1.victim_flags)
    (fun b a => (writeLocationStep_frame b a).2.2.2) locations acc

/-- An events-loop iteration touches only events, event junctions and
its counter. -/
theorem writeEventStep_frame (document_id : Option Nat) (locMap : List (String × Nat))
    (acc : DB × WriteResults) (event : VerifiedEvent) :
    (writeEventStep document_id locMap acc event).1.documents = acc.1.documents ∧
    (writeEventStep document_id locMap acc event).1.persons = acc.1.persons ∧
    (writeEventStep document_id locMap acc event).1.conflict_records =
      acc.1.conflict_records ∧
    (writeEventStep document_id locMap acc event).2.victim_flags = acc.2.victim_flags := by
  refine ⟨?_, ?_, ?_, ?_⟩
  · simp only [writeEventStep]
    rw [linkFold_documents]
    rfl
  · simp only [writeEventStep]
    rw [linkFold_persons]
    rfl
  · simp only [writeEventStep]
    rw [linkFold_conflicts]
    rfl
  · simp [writeEventStep]

/-- The events loop: documents frame. -/
theorem writeEventsPhase_documents (document_id : Option Nat)
    (locMap : List (String × Nat)) (events : List VerifiedEvent)
    (acc : DB × WriteResults) :
    (writeEventsPhase document_id locMap events acc).1.documents = acc.1.documents := by
  unfold writeEventsPhase
  exact foldl_frame (writeEventStep document_id locMap) (fun st => st.1.documents)
    (fun b a => (writeEventStep_frame document_id locMap b a).1) events acc

/-- The events loop: persons frame. -/
theorem writeEventsPhase_persons (document_id : Option Nat)
    (locMap : List (String × Nat)) (events : List VerifiedEvent)
    (acc : DB × WriteResults) :
    (writeEventsPhase document_id locMap events acc).1.persons = acc.1.persons := by
  unfold writeEventsPhase
  exact foldl_frame (writeEventStep document_id locMap) (fun st => st.1.persons)
    (fun b a => (writeEventStep_frame document_id locMap b a).2.1) events acc

/-- The events loop: conflict-records frame. -/
theorem writeEventsPhase_conflicts (document_id : Option Nat)
    (locMap : List (String × Nat)) (events : List VerifiedEvent)
    (acc : DB × WriteResults) :
    (writeEventsPhase document_id locMap events acc).1.conflict_records =
      acc.1.conflict_records := by
  unfold writeEventsPhase
  exact foldl_frame (writeEventStep document_id locMap) (fun st => st.1.conflict_records)
    (fun b a => (writeEventStep_frame document_id locMap b a).2.2.1) events acc

/-- The events loop: victim-counter frame. -/
theorem writeEventsPhase_victims (document_id : Option Nat)
    (locMap : List (String × Nat)) (events : List VerifiedEvent)
    (acc : DB × WriteResults) :
    (writeEventsPhase document_id locMap events acc).2.victim_flags = acc.2.victim_flags := by
  unfold writeEventsPhase
  exact foldl_frame (writeEventStep document_id locMap) (fun st => st.2.victim_flags)
    (fun b a => (writeEventStep_frame document_id locMap b a).2.2.2) events acc

/-- A relationships-loop iteration touches only relationship rows. -/
theorem writeRelStep_frame (document_id : Option Nat) (db : DB) (rel : RelDet) :
    (writeRelStep document_id db rel).documents = db.documents ∧
    (writeRelStep document_id db rel).persons = db.persons ∧
    (writeRelStep document_id db rel).conflict_records = db.conflict_records := by
  simp only [writeRelStep, upsertRelRow]
  repeat' split
  all_goals exact ⟨rfl, rfl, rfl⟩

/-- The relationships loop: documents frame. -/
theorem writeRelationshipsPhase_documents (document_id : Option Nat) (rels : List RelDet)
    (db : DB) :
    (writeRelationshipsPhase document_id rels db).documents = db.documents := by
  unfold writeRelationshipsPhase
  exact foldl_frame (writeRelStep document_id) (fun d => d.documents)
    (fun b a => (writeRelStep_frame document_id b a).1) rels db

/-- The relationships loop: persons frame. -/
theorem writeRelationshipsPhase_persons (document_id : Option Nat) (rels : List RelDet)
    (db : DB) :
    (writeRelationshipsPhase document_id rels db).persons = db.persons := by
  unfold writeRelationshipsPhase
  exact foldl_frame (writeRelStep document_id) (fun d => d.persons)
    (fun b a => (writeRelStep_frame document_id b a).2.1) rels db

/-- The relationships loop: conflict-records frame. -/
theorem writeRelationshipsPhase_conflicts (document_id : Option Nat) (rels : List RelDet)
    (db : DB) :
    (writeRelationshipsPhase document_id rels db).conflict_records = db.conflict_records := by
  unfold writeRelationshipsPhase
  exact foldl_frame (writeRelStep document_id) (fun d => d.conflict_records)
    (fun b a => (writeRelStep_frame document_id b a).2.2) rels db

/-- A conflicts-loop iteration appends exactly one conflict row (built
from the detected conflict) and touches nothing else in the store. -/
theorem writeConflictStep_frame (document_id : Option Nat) (acc : DB × WriteResults)
    (c : ConflictDetected) :
    (writeConflictStep document_id acc c).1.documents = acc.1.documents ∧
    (writeConflictStep document_id acc c).1.persons = acc.1.persons ∧
    (writeConflictStep document_id acc c).2.victim_flags = acc.2.victim_flags ∧
    (writeConflictStep document_id acc c).1.conflict_records =
      acc.1.conflict_records ++
        [{ entity_type := c.conflict_type, entity_id := document_id,
           conflict_field := c.description, document_a_id := document_id,
           document_a_claim := c.document_claim,
           document_b_claim := c.conflicting_claim }] :=
  ⟨rfl, rfl, rfl, rfl⟩

/-- The conflicts loop: documents frame. -/
theorem writeConflictsPhase_documents (document_id : Option Nat)
    (conflicts : List ConflictDetected) (acc : DB × WriteResults) :
    (writeConflictsPhase document_id conflicts acc).1.documents = acc.1.documents := by
  unfold writeConflictsPhase
  exact foldl_frame (writeConflictStep document_id) (fun st => st.1.documents)
    (fun b a => (writeConflictStep_frame document_id b a).1) conflicts acc

/-- The conflicts loop: persons frame. -/
theorem writeConflictsPhase_persons (document_id : Option Nat)
    (conflicts : List ConflictDetected) (acc : DB × WriteResults) :
    (writeConflictsPhase document_id conflicts acc).1.persons = acc.1.persons := by
  unfold writeConflictsPhase
  exact foldl_frame (writeConflictStep document_id) (fun st => st.1.persons)
    (fun b a => (writeConflictStep_frame document_id b a).2.1) conflicts acc

/-- The conflicts loop: victim-counter frame. -/
theorem writeConflictsPhase_victims (document_id : Option Nat)
    (conflicts : List ConflictDetected) (acc : DB × WriteResults) :
    (writeConflictsPhase document_id conflicts acc).2.victim_flags = acc.2.victim_flags := by
  unfold writeConflictsPhase
  exact foldl_frame (writeConflictStep document_id) (fun st => st.2.victim_flags)
    (fun b a => (writeConflictStep_frame document_id b a).2.2.1) conflicts acc

/-- Steps 3-7 of the writer never touch documents. -/
theorem writeRest_documents (locations : List VerifiedLocation)
    (events : List VerifiedEvent) (rels : List RelDet)
    (conflicts : List ConflictDetected) (batch_id : String) (total_tokens : Nat)
    (document_id : Option Nat) (st : DB × WriteResults) :
    (writeRest locations events rels conflicts batch_id total_tokens document_id st).1.documents
      = st.1.documents := by
  simp only [writeRest, insertLogRow]
  rw [writeConflictsPhase_documents, writeRelationshipsPhase_documents,
    writeEventsPhase_documents, writeLocationsPhase_documents]

/-- Steps 3-7 of the writer never touch persons. -/
theorem writeRest_persons (locations : List VerifiedLocation)
    (events : List VerifiedEvent) (rels : List RelDet)
    (conflicts : List ConflictDetected) (batch_id : String) (total_tokens : Nat)
    (document_id : Option Nat) (st : DB × WriteResults) :
    (writeRest locations events rels conflicts batch_id total_tokens document_id st).1.persons
      = st.1.persons := by
  simp only [writeRest, insertLogRow]
  rw [writeConflictsPhase_persons, writeRelationshipsPhase_persons,
    writeEventsPhase_persons, writeLocationsPhase_persons]

/-- Steps 3-7 of the writer never change the victim counter. -/
theorem writeRest_victims (locations : List VerifiedLocation)
    (events : List VerifiedEvent) (rels : List RelDet)
    (conflicts : List ConflictDetected) (batch_id : String) (total_tokens : Nat)
    (document_id : Option Nat) (st : DB × WriteResults) :
    (writeRest locations events rels conflicts batch_id total_tokens document_id st).2.victim_flags
      = st.2.victim_flags := by
  simp only [writeRest, insertLogRow]
  rw [writeConflictsPhase_victims, writeEventsPhase_victims, writeLocationsPhase_victims]

/-! ## C5: document upsert idempotence -/

/-- The document rows carrying a given derived reference. -/
def docsWithRef (db : DB) (r : String) : List DocRow :=
  db.documents.filter (fun d => d.doc_reference_id == r)

/-- Mapping a function that preserves a predicate preserves the filter
length. -/
theorem filter_map_length {α : Type} (f : α → α) (p : α → Bool)
    (h : ∀ x, p (f x) = p x) :
    ∀ l : List α, ((l.map f).filter p).length = (l.filter p).length := by
  intro l
  induction l with
  | nil => rfl
  | cons x t ih =>
    rw [List.map_cons, List.filter_cons, List.filter_cons, h x]
    cases p x
    · simpa using ih
    · simpa using ih

/-- Mapping a function that fixes every element satisfying a predicate
(and preserves the predicate) leaves the filter unchanged. -/
theorem filter_map_eq {α : Type} (f : α → α) (p : α → Bool)
    (h1 : ∀ x, p (f x) = p x) (h2 : ∀ x, p x = true → f x = x) :
    ∀ l : List α, (l.map f).filter p = l.filter p := by
  intro l
  induction l with
  | nil => rfl
  | cons x t ih =>
    rw [List.map_cons, List.filter_cons, List.filter_cons, h1 x]
    cases hx : p x
    · simpa using ih
    · rw [h2 x hx]
      simpa using ih

/-- Upserting a document leaves exactly one row with its reference,
provided the store held at most one before. -/
theorem upsertDocumentRow_ref_count (db : DB) (rec : DocRow)
    (h : (docsWithRef db rec.doc_reference_id).length ≤ 1) :
    (docsWithRef (upsertDocumentRow db rec).1 rec.doc_reference_id).length = 1 := by
  unfold docsWithRef at *
  unfold upsertDocumentRow
  cases hf : db.documents.find? (fun d => d.doc_reference_id == rec.doc_reference_id) with
  | none =>
    have hall : ∀ d ∈ db.documents, (d.doc_reference_id == rec.doc_reference_id) = false := by
      intro d hd
      have := List.find?_eq_none.mp hf d hd
      simpa using this
    have hnil : db.documents.filter (fun d => d.doc_reference_id == rec.doc_reference_id)
        = [] := by
      rw [List.filter_eq_nil_iff]
      intro d hd
      simp [hall d hd]
    simp only [List.filter_append, hnil, List.nil_append]
    simp
  | some old =>
    have hmem := List.mem_of_find?_eq_some hf
    have hp := List.find?_some hf
    have hlen : ((db.documents.map (fun d =>
        if d.doc_reference_id == rec.doc_reference_id then { rec with id := d.id } else d)).filter
          (fun d => d.doc_reference_id == rec.doc_reference_id)).length =
        (db.documents.filter (fun d => d.doc_reference_id == rec.doc_reference_id)).length := by
      apply filter_map_length
      intro x
      by_cases hx : (x.doc_reference_id == rec.doc_reference_id) = true
      · rw [if_pos hx, hx]
        simp
      · rw [if_neg hx]
    have hge : 1 ≤ (db.documents.filter
        (fun d => d.doc_reference_id == rec.doc_reference_id)).length := by
      have : old ∈ db.documents.filter (fun d => d.doc_reference_id == rec.doc_reference_id) :=
        List.mem_filter.mpr ⟨hmem, hp⟩
      exact List.length_pos.mpr (List.ne_nil_of_mem this)
    simp only
    rw [hlen]
    exact le_antisymm h hge

/-- Upserting a document does not touch rows with other references. -/
theorem upsertDocumentRow_other (db : DB) (rec : DocRow) (r : String)
    (hr : r ≠ rec.doc_reference_id) :
    docsWithRef (upsertDocumentRow db rec).1 r = docsWithRef db r := by
  unfold docsWithRef
  unfold upsertDocumentRow
  cases hf : db.documents.find? (fun d => d.doc_reference_id == rec.doc_reference_id) with
  | none =>
    simp only [List.filter_append]
    have hne : rec.doc_reference_id ≠ r := fun he => hr he.symm
    have : (({ rec with id := db.nextId } : DocRow).doc_reference_id == r) = false := by
      show (rec.doc_reference_id == r) = false
      simp [hne]
    simp [this]
  | some old =>
    simp only
    apply filter_map_eq
    · intro x
      by_cases hx : (x.doc_reference_id == rec.doc_reference_id) = true
      · rw [if_pos hx]
        show (rec.doc_reference_id == r) = (x.doc_reference_id == r)
        have hxe : x.doc_reference_id = rec.doc_reference_id := by simpa using hx
        rw [hxe]
      · rw [if_neg hx]
    · intro x hx
      have hxe : x.doc_reference_id = r := by simpa using hx
      have : (x.doc_reference_id == rec.doc_reference_id) = false := by
        rw [hxe]
        simp [hr]
      rw [this]
      simp

/-- The documents table after a full write equals the documents table
after the document upsert alone. -/
theorem writeToDatabase_documents (md5hex : String → String) (meta : DocumentMeta)
    (scout : ScoutData) (v : VerificationData) (dec : DecisionData)
    (batch_id : String) (db : DB) :
    (writeToDatabase md5hex meta scout v dec batch_id db).1.documents =
    (upsertDocumentRow db (buildDocRecord md5hex meta scout v batch_id)).1.documents := by
  simp only [writeToDatabase, writeCore]
  rw [writeRest_documents, writePersonsPhase_documents]

/-- The varying per-run inputs of a repeated write of the same URL. -/
structure RunInput where
  scout : ScoutData := {}
  verification : VerificationData := {}
  decision : DecisionData := {}
  batch_id : String := ""

/-- Repeatedly run the writer on the same document metadata. -/
def applyRuns (md5hex : String → String) (meta : DocumentMeta)
    (runs : List RunInput) (db : DB) : DB :=
  runs.foldl (fun db run =>
    (writeToDatabase md5hex meta run.scout run.verification run.decision run.batch_id db).1) db

/-- One run establishes the single-row property and fixes other
references. -/
theorem writeToDatabase_doc_once (md5hex : String → String) (meta : DocumentMeta)
    (scout : ScoutData) (v : VerificationData) (dec : DecisionData)
    (batch_id : String) (db : DB)
    (h : (docsWithRef db (docRefOfUrl md5hex meta.url)).length ≤ 1) :
    (docsWithRef (writeToDatabase md5hex meta scout v dec batch_id db).1
      (docRefOfUrl md5hex meta.url)).length = 1 ∧
    ∀ r, r ≠ docRefOfUrl md5hex meta.url →
      docsWithRef (writeToDatabase md5hex meta scout v dec batch_id db).1 r =
        docsWithRef db r := by
  have hdocs := writeToDatabase_documents md5hex meta scout v dec batch_id db
  have href : (buildDocRecord md5hex meta scout v batch_id).doc_reference_id =
      docRefOfUrl md5hex meta.url := rfl
  constructor
  · have hcnt := upsertDocumentRow_ref_count db (buildDocRecord md5hex meta scout v batch_id)
      (by rw [href]; exact h)
    rw [href] at hcnt
    unfold docsWithRef at *
    rw [hdocs]
    exact hcnt
  · intro r hrne
    have hoth := upsertDocumentRow_other db (buildDocRecord md5hex meta scout v batch_id) r
      (by rw [href]; exact hrne)
    unfold docsWithRef at *
    rw [hdocs]
    exact hoth

/-- C5: the Record Writer derives a stable reference from the URL and
upserts the Document keyed on it, so any nonzero number of runs over the
same URL leaves exactly one Document row for that reference (later runs
update it, never duplicate it), and rows with other references are
untouched. -/
theorem C5_document_upsert_idempotent (md5hex : String → String) (meta : DocumentMeta)
    (runs : List RunInput) (db : DB) (hne : runs ≠ [])
    (h : (docsWithRef db (docRefOfUrl md5hex meta.url)).length ≤ 1) :
    (docsWithRef (applyRuns md5hex meta runs db) (docRefOfUrl md5hex meta.url)).length = 1 ∧
    ∀ r, r ≠ docRefOfUrl md5hex meta.url →
      docsWithRef (applyRuns md5hex meta runs db) r = docsWithRef db r := by
  induction runs generalizing db with
  | nil => exact absurd rfl hne
  | cons run rs ih =>
    have hstep := writeToDatabase_doc_once md5hex meta run.scout run.verification
      run.decision run.batch_id db h
    have happly : applyRuns md5hex meta (run :: rs) db =
        applyRuns md5hex meta rs
          (writeToDatabase md5hex meta run.scout run.verification run.decision
            run.batch_id db).1 := rfl
    cases rs with
    | nil =>
      rw [happly]
      exact hstep
    | cons run2 rs2 =>
      have ihr := ih ((writeToDatabase md5hex meta run.scout run.verification
          run.decision run.batch_id db).1) (by simp) (by rw [hstep.1])
      rw [happly]
      exact ⟨ihr.1, fun r hrne => (ihr.2 r hrne).trans (hstep.2 r hrne)⟩

/-- C5 witness: two runs over the same URL starting from the empty store
leave exactly one document row for the derived reference. -/
theorem C5_document_upsert_idempotent_witness :
    (docsWithRef (applyRuns md5W { url := "https://doj.example/a.pdf" }
        [{ batch_id := "b1" }, { batch_id := "b2" }] emptyDB)
      (docRefOfUrl md5W "https://doj.example/a.pdf")).length = 1 :=
  (C5_document_upsert_idempotent md5W { url := "https://doj.example/a.pdf" }
    [{ batch_id := "b1" }, { batch_id := "b2" }] emptyDB (by simp) (by decide)).1

/-! ## C2: the stored power-index corroboration sub-score -/

/-- The fixed corroboration mapping asserted by the spec:
confirmed 90, corroborated 70, indicated 40, unverified 15.
Stated from the words of the spec, for comparison with what the writer
actually stores. -/
def specCorroborationOfConfidence : String → Option Int
  | "confirmed" => some 90
  | "corroborated" => some 70
  | "indicated" => some 40
  | "unverified" => some 15
  | _ => none

/-- Person-document upsert never touches the persons table. -/
theorem upsertPersonDocRow_persons (db : DB) (r : PersonDocRow) :
    (upsertPersonDocRow db r).persons = db.persons := by
  simp only [upsertPersonDocRow]
  split <;> rfl

/-- Person-document upsert never touches conflict records. -/
theorem upsertPersonDocRow_conflicts (db : DB) (r : PersonDocRow) :
    (upsertPersonDocRow db r).conflict_records = db.conflict_records := by
  simp only [upsertPersonDocRow]
  split <;> rfl

/-- Person upsert never touches conflict records. -/
theorem upsertPersonRow_conflicts (db : DB) (r : PersonUpsertRec) :
    (upsertPersonRow db r).1.conflict_records = db.conflict_records := by
  simp only [upsertPersonRow]
  split <;> rfl

/-- Document upsert never touches the persons table. -/
theorem upsertDocumentRow_persons (db : DB) (r : DocRow) :
    (upsertDocumentRow db r).1.persons = db.persons := by
  simp only [upsertDocumentRow]
  split <;> rfl

/-- Document upsert never touches conflict records. -/
theorem upsertDocumentRow_conflicts (db : DB) (r : DocRow) :
    (upsertDocumentRow db r).1.conflict_records = db.conflict_records := by
  simp only [upsertDocumentRow]
  split <;> rfl

/-- The corroboration sub-score the writer reads out of the decision
output for a stripped name: `persons_intel.get(name, {})`, then
`.get("power_index", {})`, then `.get("corroboration")`. -/
def decisionCorroboration (pIntel : List PersonIntel) (n : String) : Option Int :=
  ((((personsIntelGet pIntel n).map PersonIntel.power_index).getD none).getD {}).corroboration

/-- An element fixed by the mapped function stays a member of the map. -/
theorem mem_map_of_fix {α : Type} (f : α → α) (l : List α) (x : α)
    (hx : x ∈ l) (hfix : f x = x) : x ∈ l.map f :=
  hfix ▸ List.mem_map_of_mem f hx

/-- Processing a well-named, non-victim verified person leaves a person
row keyed by the stripped name whose stored corroboration sub-score is
exactly the value looked up in the decision output. -/
theorem writePersonStep_writes (pIntel : List PersonIntel) (did : Option Nat)
    (acc : DB × WriteResults) (p : VerifiedPerson)
    (hgood : ¬(pyStrip p.name).length < 2)
    (hvic : victimHit p = false) :
    ∃ row ∈ (writePersonStep pIntel did acc p).1.persons,
      row.full_name = pyStrip p.name ∧
      row.confidence = p.confidence ∧
      row.power_corroboration = decisionCorroboration pIntel (pyStrip p.name) := by
  simp only [writePersonStep]
  rw [if_neg hgood, if_neg (by simp [hvic])]
  rw [upsertPersonDocRow_persons]
  simp only [upsertPersonRow]
  cases hf : acc.1.persons.find? (fun q => q.full_name == pyStrip p.name) with
  | none =>
    refine ⟨_, List.mem_append_right _ (List.mem_singleton_self _), rfl, rfl, ?_⟩
    simp [freshPersonRow, decisionCorroboration, personsIntelGet]
  | some old =>
    have hp := List.find?_some hf
    have hmem := List.mem_of_find?_eq_some hf
    refine ⟨_, List.mem_map_of_mem _ hmem, ?_, ?_, ?_⟩ <;>
      simp [hp, applyPersonRec, decisionCorroboration, personsIntelGet]

/-- A persons-loop iteration on an entry with a different stripped name
keeps any existing person row untouched. -/
theorem writePersonStep_keeps_row (pIntel : List PersonIntel) (did : Option Nat)
    (acc : DB × WriteResults) (q : VerifiedPerson) (row : PersonRow)
    (hq : pyStrip q.name ≠ row.full_name)
    (hmem : row ∈ acc.1.persons) :
    row ∈ (writePersonStep pIntel did acc q).1.persons := by
  simp only [writePersonStep]
  split
  · exact hmem
  · split
    · exact hmem
    · rw [upsertPersonDocRow_persons]
      simp only [upsertPersonRow]
      cases hf : acc.1.persons.find? (fun x => x.full_name == pyStrip q.name) with
      | none => exact List.mem_append_left _ hmem
      | some old =>
        apply mem_map_of_fix _ _ _ hmem
        have hbe : (row.full_name == pyStrip q.name) = false := by
          simp [Ne.symm hq]
        simp [hbe]

/-- The persons loop writes a row for every well-named, non-victim entry
(with a unique stripped name in the list), storing the decision-stage
corroboration value verbatim. -/
theorem writePersonsPhase_writes (pIntel : List PersonIntel) (did : Option Nat)
    (l : List VerifiedPerson) (acc : DB × WriteResults) (p : VerifiedPerson)
    (hp : p ∈ l)
    (hgood : ¬(pyStrip p.name).length < 2)
    (hvic : victimHit p = false)
    (huniq : ∀ q ∈ l, pyStrip q.name = pyStrip p.name → q = p) :
    ∃ row ∈ (writePersonsPhase pIntel did l acc).1.persons,
      row.full_name = pyStrip p.name ∧
      row.confidence = p.confidence ∧
      row.power_corroboration = decisionCorroboration pIntel (pyStrip p.name) := by
  obtain ⟨l₁, l₂, rfl⟩ := List.append_of_mem hp
  unfold writePersonsPhase
  rw [List.foldl_append, List.foldl_cons]
  refine foldl_induct (writePersonStep pIntel did)
    (fun st => ∃ row ∈ st.1.persons,
      row.full_name = pyStrip p.name ∧
      row.confidence = p.confidence ∧
      row.power_corroboration = decisionCorroboration pIntel (pyStrip p.name))
    (fun q => q ∈ l₂) ?_ l₂ (fun a ha => ha) _
    (writePersonStep_writes pIntel did (l₁.foldl (writePersonStep pIntel did) acc) p
      hgood hvic)
  intro b q hqmem hPb
  by_cases hname : pyStrip q.name = pyStrip p.name
  · have hqp : q = p :=
      huniq q (List.mem_append_right _ (List.mem_cons_of_mem _ hqmem)) hname
    subst hqp
    exact writePersonStep_writes pIntel did b q hgood hvic
  · obtain ⟨row, hrow, h1, h2, h3⟩ := hPb
    exact ⟨row, writePersonStep_keeps_row pIntel did b q row (by rw [h1]; exact hname) hrow,
      h1, h2, h3⟩

/-- C2 (amended): for a well-named, non-victim verified person, the
stored power-index corroboration sub-score is exactly the value the
Decision stage reported for that person (null when absent); the writer
does not enforce the fixed mapping, but whenever the decision output
follows it, the stored value equals the mapping of that person's final
confidence. -/
theorem C2_power_corroboration (md5hex : String → String) (meta : DocumentMeta)
    (scout : ScoutData) (v : VerificationData) (dec : DecisionData)
    (batch_id : String) (db : DB) (p : VerifiedPerson)
    (hp : p ∈ v.verified_persons)
    (hgood : ¬(pyStrip p.name).length < 2)
    (hvic : victimHit p = false)
    (huniq : ∀ q ∈ v.verified_persons, pyStrip q.name = pyStrip p.name → q = p) :
    ∃ row ∈ (writeToDatabase md5hex meta scout v dec batch_id db).1.persons,
      row.full_name = pyStrip p.name ∧
      row.confidence = p.confidence ∧
      row.power_corroboration =
        decisionCorroboration dec.persons_intelligence (pyStrip p.name) ∧
      (∀ i px, personsIntelGet dec.persons_intelligence (pyStrip p.name) = some i →
        i.power_index = some px →
        px.corroboration = specCorroborationOfConfidence i.final_confidence →
        row.power_corroboration = specCorroborationOfConfidence i.final_confidence) := by
  have hpersons : (writeToDatabase md5hex meta scout v dec batch_id db).1.persons =
      (writePersonsPhase dec.persons_intelligence
        (some (upsertDocumentRow db (buildDocRecord md5hex meta scout v batch_id)).2)
        v.verified_persons
        ((upsertDocumentRow db (buildDocRecord md5hex meta scout v batch_id)).1,
         { document_id := some (upsertDocumentRow db
             (buildDocRecord md5hex meta scout v batch_id)).2 })).1.persons := by
    simp only [writeToDatabase, writeCore]
    rw [writeRest_persons]
  obtain ⟨row, hrow, h1, h2, h3⟩ := writePersonsPhase_writes dec.persons_intelligence
    (some (upsertDocumentRow db (buildDocRecord md5hex meta scout v batch_id)).2)
    v.verified_persons
    ((upsertDocumentRow db (buildDocRecord md5hex meta scout v batch_id)).1,
     { document_id := some (upsertDocumentRow db
         (buildDocRecord md5hex meta scout v batch_id)).2 })
    p hp hgood hvic huniq
  refine ⟨row, ?_, h1, h2, h3, ?_⟩
  · rw [hpersons]
    exact hrow
  · intro i px hi hpx hmap
    rw [h3]
    unfold decisionCorroboration
    rw [hi]
    simp [hpx, hmap]

/-- A verified person for the C2 scenarios. -/
def johnSmithC2 : VerifiedPerson := { name := "John Smith", confidence := "confirmed" }

/-- A decision output that ignores the fixed mapping: corroboration 50
for a confirmed person. -/
def decC2X : DecisionData :=
  { persons_intelligence :=
      [{ name := "John Smith", final_confidence := "confirmed",
         power_index := some { public_profile := some 80, institutional := some 70,
                               network_centrality := some 40,
                               corroboration := some 50 } }] }

/-- C2 counterexample: the writer stores whatever corroboration value
the decision stage reports — here 50 for a confirmed person, not the 90
the fixed mapping demands — so the claim that the stored sub-score
always equals the mapping fails at this concrete input. -/
theorem C2_counterexample :
    ((writeToDatabase md5W { url := "https://doj.example/a.pdf" } {}
        { verified_persons := [johnSmithC2] } decC2X "b" emptyDB).1.persons.map
      (fun row => (row.full_name, row.confidence, row.power_corroboration))) =
      [("John Smith", "confirmed", some 50)] ∧
    specCorroborationOfConfidence "confirmed" = some 90 ∧
    some (50 : Int) ≠ some (90 : Int) := by
  refine ⟨by decide, by decide, by decide⟩

/-- A decision output that follows the fixed mapping. -/
def decC2W : DecisionData :=
  { persons_intelligence :=
      [{ name := "John Smith", final_confidence := "confirmed",
         power_index := some { corroboration := some 90 } }] }

/-- C2 witness: the amended theorem at a concrete compliant run. -/
theorem C2_power_corroboration_witness :
    ∃ row ∈ (writeToDatabase md5W { url := "https://doj.example/a.pdf" } {}
        { verified_persons := [johnSmithC2] } decC2W "b" emptyDB).1.persons,
      row.full_name = pyStrip johnSmithC2.name ∧
      row.confidence = johnSmithC2.confidence ∧
      row.power_corroboration =
        decisionCorroboration decC2W.persons_intelligence (pyStrip johnSmithC2.name) ∧
      (∀ i px, personsIntelGet decC2W.persons_intelligence (pyStrip johnSmithC2.name)
          = some i →
        i.power_index = some px →
        px.corroboration = specCorroborationOfConfidence i.final_confidence →
        row.power_corroboration = specCorroborationOfConfidence i.final_confidence) :=
  C2_power_corroboration md5W { url := "https://doj.example/a.pdf" } {}
    { verified_persons := [johnSmithC2] } decC2W "b" emptyDB johnSmithC2
    (by decide) (by decide) (by decide) (by decide)

/-! ## C1: the victim-protection invariant -/

/-- The shape of a victim-diversion conflict row for a given name. -/
def victimShape (n : String) (c : ConflictRow) : Bool :=
  c.conflict_field == "victim_flag" &&
    c.document_a_claim == ("Possible victim: " ++ n)

/-- Ids of the person rows carrying a given full name. -/
def personIdsNamed (db : DB) (n : String) : List Nat :=
  (db.persons.filter (fun p => p.full_name == n)).map (fun p => p.id)

/-- Whether anything in the store references a name: a person row with
that name, or a person-document link or relationship pointing at the id
of such a row. -/
def nameReferenced (db : DB) (n : String) : Bool :=
  !(db.persons.filter (fun p => p.full_name == n)).isEmpty ||
  db.person_documents.any (fun j => (personIdsNamed db n).contains j.person_id) ||
  db.person_relationships.any (fun r =>
    (personIdsNamed db n).contains r.person_a_id ||
    (personIdsNamed db n).contains r.person_b_id)

/-- With no person row carrying the name, nothing references it. -/
theorem nameReferenced_eq_false (db : DB) (n : String)
    (h : ∀ row ∈ db.persons, row.full_name ≠ n) : nameReferenced db n = false := by
  have hfil : db.persons.filter (fun p => p.full_name == n) = [] := by
    rw [List.filter_eq_nil_iff]
    intro p hp
    simp [h p hp]
  simp [nameReferenced, personIdsNamed, hfil]

/-- The victim-diversion row matches the shape exactly when the diverted
name is the one asked about. -/
theorem victimShape_victimRow (did : Option Nat) (n name : String) :
    victimShape n (victimConflictRow did name) = (name == n) := by
  simp only [victimShape, victimConflictRow]
  rw [strAppend_beq]
  simp

/-- One persons-loop iteration adds a shape-matching conflict row
exactly for a well-named victim-flagged entry with the asked-about name. -/
theorem writePersonStep_shape_count (pIntel : List PersonIntel) (did : Option Nat)
    (acc : DB × WriteResults) (q : VerifiedPerson) (n : String) :
    ((writePersonStep pIntel did acc q).1.conflict_records.filter (victimShape n)).length =
    (acc.1.conflict_records.filter (victimShape n)).length +
    (if (if (pyStrip q.name).length < 2 then false
         else victimHit q && (pyStrip q.name == n)) = true then 1 else 0) := by
  simp only [writePersonStep]
  by_cases hshort : (pyStrip q.name).length < 2
  · rw [if_pos hshort, if_pos hshort]
    simp
  · rw [if_neg hshort, if_neg hshort]
    by_cases hv : victimHit q = true
    · rw [if_pos hv]
      simp only [insertConflictRow, List.filter_append, List.length_append]
      have hone : ([victimConflictRow did (pyStrip q.name)].filter (victimShape n)).length =
          if (victimHit q && (pyStrip q.name == n)) = true then 1 else 0 := by
        rw [List.filter_cons]
        rw [victimShape_victimRow]
        rw [hv]
        cases hqn : (pyStrip q.name == n) <;> simp
      rw [hone]
    · rw [if_neg hv]
      rw [upsertPersonDocRow_conflicts, upsertPersonRow_conflicts]
      have : (victimHit q && (pyStrip q.name == n)) = false := by
        simp [hv]
      rw [this]
      simp

/-- One persons-loop iteration increments the victim counter exactly for
a well-named victim-flagged entry. -/
theorem writePersonStep_victims (pIntel : List PersonIntel) (did : Option Nat)
    (acc : DB × WriteResults) (q : VerifiedPerson) :
    (writePersonStep pIntel did acc q).2.victim_flags =
    acc.2.victim_flags +
    (if (if (pyStrip q.name).length < 2 then false else victimHit q) = true
     then 1 else 0) := by
  simp only [writePersonStep]
  by_cases hshort : (pyStrip q.name).length < 2
  · rw [if_pos hshort, if_pos hshort]
    simp
  · rw [if_neg hshort, if_neg hshort]
    by_cases hv : victimHit q = true
    · rw [if_pos hv, hv]
      simp
    · rw [if_neg hv]
      have : victimHit q = false := by
        cases hb : victimHit q
        · rfl
        · exact absurd hb hv
      rw [this]
      simp

/-- The persons loop: shape-matching conflict rows grow by exactly one
per well-named victim-flagged entry with the asked-about name. -/
theorem writePersonsPhase_shape_count (pIntel : List PersonIntel) (did : Option Nat)
    (l : List VerifiedPerson) (acc : DB × WriteResults) (n : String) :
    ((writePersonsPhase pIntel did l acc).1.conflict_records.filter
        (victimShape n)).length =
    (acc.1.conflict_records.filter (victimShape n)).length +
    l.countP (fun q => if (pyStrip q.name).length < 2 then false
      else victimHit q && (pyStrip q.name == n)) := by
  induction l generalizing acc with
  | nil => simp [writePersonsPhase]
  | cons q t ih =>
    unfold writePersonsPhase at *
    rw [List.foldl_cons, ih, writePersonStep_shape_count, List.countP_cons]
    omega

/-- The persons loop: the victim counter grows by exactly one per
well-named victim-flagged entry. -/
theorem writePersonsPhase_victims (pIntel : List PersonIntel) (did : Option Nat)
    (l : List VerifiedPerson) (acc : DB × WriteResults) :
    (writePersonsPhase pIntel did l acc).2.victim_flags =
    acc.2.victim_flags +
    l.countP (fun q => if (pyStrip q.name).length < 2 then false else victimHit q) := by
  induction l generalizing acc with
  | nil => simp [writePersonsPhase]
  | cons q t ih =>
    unfold writePersonsPhase at *
    rw [List.foldl_cons, ih, writePersonStep_victims, List.countP_cons]
    omega

/-- Person upsert only introduces rows carrying the upserted name; all
other rows come from the previous table unchanged. -/
theorem upsertPersonRow_names (db : DB) (r : PersonUpsertRec) :
    ∀ row ∈ (upsertPersonRow db r).1.persons,
      row.full_name = r.full_name ∨ row ∈ db.persons := by
  simp only [upsertPersonRow]
  cases hf : db.persons.find? (fun p => p.full_name == r.full_name) with
  | none =>
    intro row hrow
    rcases List.mem_append.mp hrow with h | h
    · exact Or.inr h
    · left
      have hrw : row = freshPersonRow r db.nextId := by simpa using h
      rw [hrw]
      rfl
  | some old =>
    intro row hrow
    obtain ⟨x, hx, hxe⟩ := List.mem_map.mp hrow
    rw [← hxe]
    by_cases hxq : (x.full_name == r.full_name) = true
    · rw [if_pos hxq]
      exact Or.inl rfl
    · rw [if_neg hxq]
      exact Or.inr hx

/-- A persons-loop iteration never writes a person row with a name whose
every occurrence in the loop is victim-flagged. -/
theorem writePersonStep_no_n (pIntel : List PersonIntel) (did : Option Nat)
    (acc : DB × WriteResults) (q : VerifiedPerson) (n : String)
    (hq : pyStrip q.name = n → victimHit q = true)
    (hacc : ∀ row ∈ acc.1.persons, row.full_name ≠ n) :
    ∀ row ∈ (writePersonStep pIntel did acc q).1.persons, row.full_name ≠ n := by
  simp only [writePersonStep]
  by_cases hshort : (pyStrip q.name).length < 2
  · rw [if_pos hshort]
    exact hacc
  · rw [if_neg hshort]
    by_cases hv : victimHit q = true
    · rw [if_pos hv]
      exact hacc
    · rw [if_neg hv]
      have hne : pyStrip q.name ≠ n := fun hn => hv (hq hn)
      rw [upsertPersonDocRow_persons]
      intro row hrow
      rcases upsertPersonRow_names acc.1 _ row hrow with h | h
      · rw [h]
        exact hne
      · exact hacc row h

/-- The persons loop never writes a person row for a name whose every
occurrence in the list is victim-flagged. -/
theorem writePersonsPhase_no_n (pIntel : List PersonIntel) (did : Option Nat)
    (l : List VerifiedPerson) (acc : DB × WriteResults) (n : String)
    (h1 : ∀ q ∈ l, pyStrip q.name = n → victimHit q = true)
    (hacc : ∀ row ∈ acc.1.persons, row.full_name ≠ n) :
    ∀ row ∈ (writePersonsPhase pIntel did l acc).1.persons, row.full_name ≠ n := by
  unfold writePersonsPhase
  exact foldl_induct (writePersonStep pIntel did)
    (fun st => ∀ row ∈ st.1.persons, row.full_name ≠ n)
    (fun q => pyStrip q.name = n → victimHit q = true)
    (fun b a ha hb => writePersonStep_no_n pIntel did b a n ha hb) l h1 acc hacc

/-- The detected-conflicts loop appends no shape-matching rows when no
detected conflict mimics a victim diversion for the name. -/
theorem writeConflictsPhase_no_shape (did : Option Nat) (l : List ConflictDetected)
    (acc : DB × WriteResults) (n : String)
    (h2 : ∀ c ∈ l, ¬(c.description = "victim_flag" ∧
      c.document_claim = "Possible victim: " ++ n)) :
    (writeConflictsPhase did l acc).1.conflict_records.filter (victimShape n) =
    acc.1.conflict_records.filter (victimShape n) := by
  induction l generalizing acc with
  | nil => rfl
  | cons c t ih =>
    unfold writeConflictsPhase at *
    rw [List.foldl_cons, ih _ (fun x hx => h2 x (List.mem_cons_of_mem c hx))]
    rw [(writeConflictStep_frame did acc c).2.2.2]
    rw [List.filter_append]
    have hrow : victimShape n
        { entity_type := c.conflict_type, entity_id := did,
          conflict_field := c.description, document_a_id := did,
          document_a_claim := c.document_claim,
          document_b_claim := c.conflicting_claim } = false := by
      by_cases hd : c.description = "victim_flag"
      · have hc : c.document_claim ≠ "Possible victim: " ++ n :=
          fun hcc => h2 c (List.mem_cons_self c t) ⟨hd, hcc⟩
        simp [victimShape, hc]
      · simp [victimShape, hd]
    simp [hrow]

/-- Steps 3-7 add no shape-matching conflict rows (under the same
hypothesis on the detected conflicts). -/
theorem writeRest_victim_conflicts (locations : List VerifiedLocation)
    (events : List VerifiedEvent) (rels : List RelDet)
    (conflicts : List ConflictDetected) (batch_id : String) (total_tokens : Nat)
    (document_id : Option Nat) (st : DB × WriteResults) (n : String)
    (h2 : ∀ c ∈ conflicts, ¬(c.description = "victim_flag" ∧
      c.document_claim = "Possible victim: " ++ n)) :
    (writeRest locations events rels conflicts batch_id total_tokens document_id
        st).1.conflict_records.filter (victimShape n) =
    st.1.conflict_records.filter (victimShape n) := by
  simp only [writeRest, insertLogRow]
  rw [writeConflictsPhase_no_shape _ _ _ _ h2]
  rw [writeRelationshipsPhase_conflicts, writeEventsPhase_conflicts,
    writeLocationsPhase_conflicts]

/-- C1 (amended): when every verified-person entry carrying a stripped
name is victim-flagged (by the explicit flag on the verified entry or by
the lexicon), and no person row with that name pre-exists, the write
phase leaves no person row with that name and nothing referencing it;
each well-named diverted entry contributes exactly one victim-diversion
ConflictRecord, and the victim-flag counter counts exactly the
well-named diverted entries.  Entries whose stripped name is shorter
than 2 characters are skipped without a ConflictRecord, and scout-stage
flags not echoed on the verified entry are not consulted. -/
theorem C1_victim_protection (md5hex : String → String) (meta : DocumentMeta)
    (scout : ScoutData) (v : VerificationData) (dec : DecisionData)
    (batch_id : String) (db : DB) (n : String)
    (h0 : ∀ row ∈ db.persons, row.full_name ≠ n)
    (h1 : ∀ q ∈ v.verified_persons, pyStrip q.name = n → victimHit q = true)
    (h2 : ∀ c ∈ v.conflicts_detected, ¬(c.description = "victim_flag" ∧
      c.document_claim = "Possible victim: " ++ n)) :
    (∀ row ∈ (writeToDatabase md5hex meta scout v dec batch_id db).1.persons,
      row.full_name ≠ n) ∧
    nameReferenced (writeToDatabase md5hex meta scout v dec batch_id db).1 n = false ∧
    ((writeToDatabase md5hex meta scout v dec batch_id db).1.conflict_records.filter
        (victimShape n)).length =
      (db.conflict_records.filter (victimShape n)).length +
      v.verified_persons.countP (fun q =>
        if (pyStrip q.name).length < 2 then false
        else victimHit q && (pyStrip q.name == n)) ∧
    (writeToDatabase md5hex meta scout v dec batch_id db).2.victim_flags =
      v.verified_persons.countP (fun q =>
        if (pyStrip q.name).length < 2 then false else victimHit q) := by
  have hcore : writeToDatabase md5hex meta scout v dec batch_id db =
      writeRest v.verified_locations v.verified_events dec.relationship_determinations
        v.conflicts_detected batch_id
        (scout.tokensUsed + v.tokensUsed + dec.tokensUsed)
        (some (upsertDocumentRow db (buildDocRecord md5hex meta scout v batch_id)).2)
        (writePersonsPhase dec.persons_intelligence
          (some (upsertDocumentRow db (buildDocRecord md5hex meta scout v batch_id)).2)
          v.verified_persons
          ((upsertDocumentRow db (buildDocRecord md5hex meta scout v batch_id)).1,
           { document_id := some (upsertDocumentRow db
               (buildDocRecord md5hex meta scout v batch_id)).2 })) := rfl
  have hbase : ∀ row ∈ (upsertDocumentRow db
      (buildDocRecord md5hex meta scout v batch_id)).1.persons, row.full_name ≠ n := by
    intro row hrow
    rw [upsertDocumentRow_persons] at hrow
    exact h0 row hrow
  have hno : ∀ row ∈ (writeToDatabase md5hex meta scout v dec batch_id db).1.persons,
      row.full_name ≠ n := by
    rw [hcore]
    intro row hrow
    rw [writeRest_persons] at hrow
    exact writePersonsPhase_no_n dec.persons_intelligence _ v.verified_persons _ n h1
      hbase row hrow
  refine ⟨hno, nameReferenced_eq_false _ n hno, ?_, ?_⟩
  · rw [hcore]
    rw [writeRest_victim_conflicts _ _ _ _ _ _ _ _ n h2]
    rw [writePersonsPhase_shape_count]
    rw [upsertDocumentRow_conflicts]
  · rw [hcore]
    rw [writeRest_victims]
    rw [writePersonsPhase_victims]
    simp

/-- Scout output flagging a possible victim that the verification stage
does not echo. -/
def scoutC1X : ScoutData :=
  { persons_found := [{ name := "Xavier Quinn", possible_victim := true }] }

/-- Verification output with a short-named flagged entry and an
unflagged echo of the scout-flagged person. -/
def verifC1X : VerificationData :=
  { verified_persons := [{ name := "J", possible_victim := true },
                         { name := "Xavier Quinn" }] }

/-- C1 counterexample: a concrete run in which (a) the scout stage
flagged a person as a possible victim, yet, the flag not being echoed on
the verified entry and the name not matching the lexicon, a Person row
is written for that name, and (b) a verified entry flagged
possible-victim whose name is shorter than 2 characters is skipped
silently — no ConflictRecord is written and the victim counter stays 0,
where the claim demands diversion records and counter increments. -/
theorem C1_counterexample :
    ((writeToDatabase md5W { url := "https://doj.example/a.pdf" } scoutC1X verifC1X {}
        "b" emptyDB).1.persons.map (fun p => p.full_name)) = ["Xavier Quinn"] ∧
    (writeToDatabase md5W { url := "https://doj.example/a.pdf" } scoutC1X verifC1X {}
        "b" emptyDB).1.conflict_records = [] ∧
    (writeToDatabase md5W { url := "https://doj.example/a.pdf" } scoutC1X verifC1X {}
        "b" emptyDB).2.victim_flags = 0 ∧
    scoutC1X.persons_found.map (fun p => (p.name, p.possible_victim)) =
      [("Xavier Quinn", true)] ∧
    verifC1X.verified_persons.map (fun p => (p.name, p.possible_victim)) =
      [("J", true), ("Xavier Quinn", false)] := by
  refine ⟨by decide, by decide, by decide, by decide, by decide⟩

/-- C1 witness: a lexicon-matched name ("Jane Doe") is diverted — no
person row, nothing referencing it, exactly one diversion ConflictRecord
and a victim count of one. -/
theorem C1_victim_protection_witness :
    (∀ row ∈ (writeToDatabase md5W { url := "https://doj.example/a.pdf" } {}
        { verified_persons := [{ name := "Jane Doe" }] } {} "b" emptyDB).1.persons,
      row.full_name ≠ "Jane Doe") ∧
    nameReferenced (writeToDatabase md5W { url := "https://doj.example/a.pdf" } {}
        { verified_persons := [{ name := "Jane Doe" }] } {} "b" emptyDB).1 "Jane Doe"
      = false ∧
    ((writeToDatabase md5W { url := "https://doj.example/a.pdf" } {}
        { verified_persons := [{ name := "Jane Doe" }] } {} "b"
        emptyDB).1.conflict_records.filter (victimShape "Jane Doe")).length =
      (emptyDB.conflict_records.filter (victimShape "Jane Doe")).length +
      (({ verified_persons := [{ name := "Jane Doe" }] } :
          VerificationData).verified_persons.countP (fun q =>
        if (pyStrip q.name).length < 2 then false
        else victimHit q && (pyStrip q.name == "Jane Doe"))) ∧
    (writeToDatabase md5W { url := "https://doj.example/a.pdf" } {}
        { verified_persons := [{ name := "Jane Doe" }] } {} "b" emptyDB).2.victim_flags =
      (({ verified_persons := [{ name := "Jane Doe" }] } :
          VerificationData).verified_persons.countP (fun q =>
        if (pyStrip q.name).length < 2 then false else victimHit q)) :=
  C1_victim_protection md5W { url := "https://doj.example/a.pdf" } {}
    { verified_persons := [{ name := "Jane Doe" }] } {} "b" emptyDB "Jane Doe"
    (by decide) (by decide) (by decide)

/-! ## C3: relationship identity is the ordered, not unordered, id pair -/

/-- Two verified persons for the relationship scenario. -/
def verifC3X : VerificationData :=
  { verified_persons := [{ name := "Alice Adams" }, { name := "Bob Brown" }] }

/-- The same pair determined twice, the second time in reversed order. -/
def decC3X : DecisionData :=
  { relationship_determinations :=
      [{ person_a := "Alice Adams", person_b := "Bob Brown" },
       { person_a := "Bob Brown", person_b := "Alice Adams" }] }

/-- C3: the relationship upsert is keyed on the ordered id pair
(`on_conflict="person_a_id,person_b_id"`), so writing a determination
for (A, B) and then one for (B, A) creates two relationship rows for the
same unordered pair — the ids are swapped between the rows — where the
claim (and the data model of the spec) demands a single row. -/
theorem C3_relationship_ordered_pair :
    ((writeToDatabase md5W { url := "https://doj.example/a.pdf" } {} verifC3X decC3X
        "b" emptyDB).1.persons.map (fun p => (p.id, p.full_name))) =
      [(2, "Alice Adams"), (3, "Bob Brown")] ∧
    ((writeToDatabase md5W { url := "https://doj.example/a.pdf" } {} verifC3X decC3X
        "b" emptyDB).1.person_relationships.map
        (fun r => (r.person_a_id, r.person_b_id))) = [(2, 3), (3, 2)] ∧
    (writeToDatabase md5W { url := "https://doj.example/a.pdf" } {} verifC3X decC3X
        "b" emptyDB).1.person_relationships.length = 2 ∧
    decC3X.relationship_determinations.map (fun r => (r.person_a, r.person_b)) =
      [("Alice Adams", "Bob Brown"), ("Bob Brown", "Alice Adams")] := by
  refine ⟨by decide, by decide, by decide, by decide⟩
